import Mathlib

/-!
# Karpenter allocation pipeline: filter, controller, launcher and AWS constraint defaults

A shallow embedding of

* `pkg/controllers/allocation/filter.go`     (pod admission filter),
* `pkg/controllers/allocation/controller.go` (reconcile loop and pod routing),
* `pkg/controllers/allocation/launcher.go`   (node creation and pod binding),
* `pkg/cloudprovider/aws/apis/v1alpha1/provider_defaults.go` (constraint defaulting),
* `pkg/cloudprovider/aws/apis/v1alpha1/tags.go` (tags of the created resources),

followed by the theorems that relate the code to its specification.

Conventions of the embedding.

* A Go `error` value is represented by the list of its leaf errors as
  `multierr.Errors` reports it: `[]` is `nil`, a one-element list is an ordinary
  error, a longer list is a `multierr` aggregate.
* A Go `map[string]string` is an association list read with `List.lookup`; a slice
  or map whose nil-ness the code inspects is wrapped in `Option` (`none` is `nil`).
* Calls that leave the process (API server, cloud provider, batcher) are answered
  by a `World` of response functions and are recorded, in program order, in a trace
  of `Event`s returned next to the Go result.
* Constants and helper functions that the sources take from packages of this
  repository which are not part of the sources are collected in `Deps` and every
  definition is parametric in them.
-/

namespace Karpenter

/-! ## Errors (`error`, `fmt.Errorf`, `go.uber.org/multierr`, `k8s.io/apimachinery/pkg/api/errors`) -/

/-- The `metav1.StatusReason` values of an API status error that the code inspects. -/
inductive StatusReason where
  | Unknown
  | NotFound
  | AlreadyExists
  | Conflict
  | Forbidden
  | Timeout
  deriving DecidableEq

/-- A non-nil Go error that is not a `multierr` aggregate. `status` is an API
`StatusError`; `errorf` is `fmt.Errorf` without `%w`; `wrapf` is `fmt.Errorf` with
`%w`, holding the formatted text and the wrapped error. -/
inductive Err where
  | status (reason : StatusReason) (message : String)
  | errorf (message : String)
  | wrapf (message : String) (cause : List Err)

/-- A Go `error` value: the leaf errors it aggregates, `[]` for `nil`. -/
abbrev Error := List Err

/-- The text of `err.Error()` for a leaf error. -/
def Err.Error : Err → String
  | .status _ message => message
  | .errorf message => message
  | .wrapf message _ => message

/-- The text of `err.Error()` for an error value; `multierr` joins the texts of an
aggregate with `"; "`. -/
def Error.text (err : Error) : String :=
  "; ".intercalate (err.map Err.Error)

/-- Go `fmt.Errorf(format + "%w", err)`: a leaf error whose text ends in the text of
`err` and which wraps `err`. -/
def fmt.Errorfw (text : String) (err : Error) : Err :=
  .wrapf (text ++ err.text) err

/-- Go `multierr.Append(left, right)`. -/
def multierr.Append (left right : Error) : Error :=
  left ++ right

/-- Go `multierr.Combine(errs...)`. -/
def multierr.Combine (errs : List Error) : Error :=
  errs.flatten

mutual
/-- The API status that `errors.As` finds in a leaf error, as its reason: the error
itself when it is an API status, otherwise the first API status met along the chain of
wrapped errors, an aggregate being searched leaf by leaf in order; `none` when the chain
holds no API status. The search stops at the first API status whatever its reason. -/
def Err.apiStatus : Err → Option StatusReason
  | .status reason _ => some reason
  | .errorf _ => none
  | .wrapf _ cause => Err.apiStatusOfList cause
/-- The API status that `errors.As` finds in the leaves of an aggregate: that of the
first leaf that holds one. -/
def Err.apiStatusOfList : List Err → Option StatusReason
  | [] => none
  | e :: es =>
    match e.apiStatus with
    | some reason => some reason
    | none => Err.apiStatusOfList es
end

/-- Go `errors.ReasonForError(err)`: the reason of the API status that `errors.As`
finds, `Unknown` when it finds none. -/
def Err.reason (err : Err) : StatusReason :=
  err.apiStatus.getD .Unknown

/-- Go `errors.IsNotFound(err)`. -/
def errors.IsNotFound (err : Err) : Bool :=
  decide (err.reason = .NotFound)

/-- Go `errors.IsAlreadyExists(err)`. -/
def errors.IsAlreadyExists (err : Err) : Bool :=
  decide (err.reason = .AlreadyExists)

/-! ## Kubernetes objects (`k8s.io/api/core/v1`, `k8s.io/apimachinery`) -/

/-- A Go `map[string]string`. -/
abbrev StringMap := List (String × String)

structure TypeMeta where
  Kind : String
  APIVersion : String
  deriving DecidableEq

structure OwnerReference where
  APIVersion : String
  Kind : String
  Name : String
  deriving DecidableEq

structure ObjectMeta where
  Name : String
  Namespace : String
  Labels : StringMap
  OwnerReferences : List OwnerReference
  Finalizers : List String
  deriving DecidableEq

structure NodeSelectorRequirement where
  Key : String
  Operator : String
  Values : List String
  deriving DecidableEq

/-- A `v1.NodeSelectorTerm`; both slices are nil-able. -/
structure NodeSelectorTerm where
  MatchExpressions : Option (List NodeSelectorRequirement)
  MatchFields : Option (List NodeSelectorRequirement)
  deriving DecidableEq

structure PreferredSchedulingTerm where
  Weight : Int
  Preference : NodeSelectorTerm
  deriving DecidableEq

structure NodeSelector where
  NodeSelectorTerms : List NodeSelectorTerm
  deriving DecidableEq

structure NodeAffinity where
  RequiredDuringSchedulingIgnoredDuringExecution : Option NodeSelector
  PreferredDuringSchedulingIgnoredDuringExecution : List PreferredSchedulingTerm
  deriving DecidableEq

/-- A pod affinity term, reduced to its topology key: the code only tests whether a
`PodAffinity` or `PodAntiAffinity` is set. -/
structure PodAffinityTerm where
  TopologyKey : String
  deriving DecidableEq

structure PodAffinity where
  RequiredDuringSchedulingIgnoredDuringExecution : List PodAffinityTerm
  deriving DecidableEq

structure PodAntiAffinity where
  RequiredDuringSchedulingIgnoredDuringExecution : List PodAffinityTerm
  deriving DecidableEq

structure Affinity where
  NodeAffinity : Option NodeAffinity
  PodAffinity : Option PodAffinity
  PodAntiAffinity : Option PodAntiAffinity
  deriving DecidableEq

structure TopologySpreadConstraint where
  MaxSkew : Int
  TopologyKey : String
  deriving DecidableEq

structure PodSpec where
  NodeName : String
  NodeSelector : StringMap
  Affinity : Option Affinity
  TopologySpreadConstraints : List TopologySpreadConstraint
  deriving DecidableEq

structure PodCondition where
  Type_ : String
  Status : String
  Reason : String
  deriving DecidableEq

structure PodStatus where
  Conditions : List PodCondition
  deriving DecidableEq

structure Pod extends TypeMeta, ObjectMeta where
  Spec : PodSpec
  Status : PodStatus
  deriving DecidableEq

structure Taint where
  Key : String
  Value : String
  Effect : String
  deriving DecidableEq

structure NodeSpec where
  Taints : List Taint
  deriving DecidableEq

structure Node extends ObjectMeta where
  Spec : NodeSpec
  deriving DecidableEq

/-- The body of a bind request, `v1.Binding`. -/
structure Binding extends TypeMeta, ObjectMeta where
  Target : String
  deriving DecidableEq

def v1.LabelHostname : String := "kubernetes.io/hostname"

def v1.LabelTopologyZone : String := "topology.kubernetes.io/zone"

def v1.LabelArchStable : String := "kubernetes.io/arch"

def v1.NodeSelectorOpIn : String := "In"

def v1.NodeSelectorOpNotIn : String := "NotIn"

def v1.TaintEffectNoSchedule : String := "NoSchedule"

/-! ## Declarations of `pkg/apis/provisioning/v1alpha5` and of the cloud provider API -/

namespace v1alpha5

/-- The constraints of a provisioner, `v1alpha5.Constraints`. -/
structure Constraints where
  Labels : StringMap
  Taints : List Taint
  Requirements : List NodeSelectorRequirement
  deriving DecidableEq

structure ProvisionerSpec where
  Constraints : Constraints
  deriving DecidableEq

structure Provisioner extends ObjectMeta where
  Spec : ProvisionerSpec
  deriving DecidableEq

end v1alpha5

/-- The zero value `&v1alpha5.Provisioner{}`. -/
def emptyProvisioner : v1alpha5.Provisioner :=
  { Name := "", Namespace := "", Labels := [], OwnerReferences := [], Finalizers := [],
    Spec := { Constraints := { Labels := [], Taints := [], Requirements := [] } } }

/-- What the sources take from packages of this repository that are not among them:
the constants of `pkg/apis/provisioning/v1alpha5` and of the AWS provider, and the pod
predicates of `pkg/utils/pod`. -/
structure Deps where
  /-- The declaration `v1alpha5.ProvisionerNameLabelKey`. -/
  ProvisionerNameLabelKey : String
  /-- The declaration `v1alpha5.DefaultProvisioner.Name`. -/
  DefaultProvisionerName : String
  /-- The declaration `v1alpha5.LabelCapacityType`. -/
  LabelCapacityType : String
  /-- The declaration `v1alpha5.ArchitectureAmd64`. -/
  ArchitectureAmd64 : String
  /-- The declaration `v1alpha1.CapacityTypeOnDemand`. -/
  CapacityTypeOnDemand : String
  /-- The declaration `v1alpha5.TerminationFinalizer`. -/
  TerminationFinalizer : String
  /-- The declaration `v1alpha5.NotReadyTaintKey`. -/
  NotReadyTaintKey : String
  /-- The declaration `pod.FailedToSchedule`. -/
  FailedToSchedule : Pod → Bool
  /-- The declaration `pod.IsOwnedByDaemonSet`. -/
  IsOwnedByDaemonSet : Pod → Bool
  /-- The declaration `pod.IsOwnedByNode`. -/
  IsOwnedByNode : Pod → Bool

namespace types

structure NamespacedName where
  Namespace : String
  Name : String
  deriving DecidableEq

end types

namespace reconcile

/-- A `reconcile.Request`; it embeds the `NamespacedName`. -/
structure Request extends types.NamespacedName where
  deriving DecidableEq

/-- A `reconcile.Result`, reduced to the field the code sets. -/
structure Result where
  Requeue : Bool
  deriving DecidableEq

end reconcile

/-- The variable `v1alpha5.DefaultProvisioner`, a `types.NamespacedName` of which only the name is set. -/
def Deps.DefaultProvisioner (k : Deps) : types.NamespacedName :=
  { Namespace := "", Name := k.DefaultProvisionerName }

/-! ## `filter.go` -/

/-- The text `%s` prints for `sets.NewString(v1.LabelHostname, v1.LabelTopologyZone)`,
a map from string to the empty struct, printed with its keys sorted. -/
def supportedTopologyKeysText : String :=
  "map[" ++ v1.LabelHostname ++ ":\x7b\x7d " ++ v1.LabelTopologyZone ++ ":\x7b\x7d]"

namespace Filter

def isUnschedulable (k : Deps) (p : Pod) : Error :=
  if !k.FailedToSchedule p then
    [.errorf "awaiting scheduling"]
  else if k.IsOwnedByDaemonSet p then
    [.errorf "owned by daemonset"]
  else if k.IsOwnedByNode p then
    [.errorf "owned by node"]
  else
    []

def matchesProvisioner (k : Deps) (pod : Pod) (provisioner : v1alpha5.Provisioner) : Error :=
  let lookup := pod.Spec.NodeSelector.lookup k.ProvisionerNameLabelKey
  let name := lookup.getD ""
  let ok := lookup.isSome
  if ok && decide (provisioner.Name = name) then
    []
  else if !ok && decide (provisioner.Name = k.DefaultProvisionerName) then
    []
  else
    [.errorf ("matched another provisioner, " ++ name)]

def validateTopology (pod : Pod) : Error :=
  pod.Spec.TopologySpreadConstraints.foldl
    (fun errs constraint =>
      if !decide (constraint.TopologyKey ∈ [v1.LabelHostname, v1.LabelTopologyZone]) then
        multierr.Append errs
          [.errorf ("unsupported topology key, " ++ constraint.TopologyKey ++ " not in "
            ++ supportedTopologyKeysText)]
      else errs)
    []

end Filter

def validateNodeSelectorTerm (term : NodeSelectorTerm) : Error :=
  let errs : Error := []
  let errs :=
    if term.MatchFields.isSome then
      multierr.Append errs [.errorf "matchFields is not supported"]
    else errs
  match term.MatchExpressions with
  | some matchExpressions =>
    matchExpressions.foldl
      (fun errs requirement =>
        if !decide (requirement.Operator ∈ [v1.NodeSelectorOpIn, v1.NodeSelectorOpNotIn]) then
          multierr.Append errs [.errorf ("unsupported operator, " ++ requirement.Operator)]
        else errs)
      errs
  | none => errs

namespace Filter

def validateAffinity (pod : Pod) : Error :=
  match pod.Spec.Affinity with
  | none => []
  | some affinity =>
    let errs : Error := []
    let errs :=
      if affinity.PodAffinity.isSome then
        multierr.Append errs [.errorf "pod affinity is not supported"]
      else errs
    let errs :=
      if affinity.PodAntiAffinity.isSome then
        multierr.Append errs [.errorf "pod anti-affinity is not supported"]
      else errs
    match affinity.NodeAffinity with
    | none => errs
    | some nodeAffinity =>
      let errs :=
        nodeAffinity.PreferredDuringSchedulingIgnoredDuringExecution.foldl
          (fun errs term => multierr.Append errs (validateNodeSelectorTerm term.Preference))
          errs
      match nodeAffinity.RequiredDuringSchedulingIgnoredDuringExecution with
      | none => errs
      | some required =>
        required.NodeSelectorTerms.foldl
          (fun errs term => multierr.Append errs (validateNodeSelectorTerm term))
          errs

def isProvisionable (k : Deps) (pod : Pod) (provisioner : v1alpha5.Provisioner) : Error :=
  multierr.Combine
    [ isUnschedulable k pod,
      validateAffinity pod,
      validateTopology pod,
      matchesProvisioner k pod provisioner ]

end Filter

/-! ## The world outside the process -/

/-- Modelled from the spec: `cloudprovider.InstanceType` is declared outside the
sources; a resource shape is a named offering. -/
structure InstanceType where
  Name : String
  deriving DecidableEq

/-- Modelled from the spec: `scheduling.Schedule` is declared outside the sources; a
schedule carries merged constraints and its pods. -/
structure Schedule where
  Constraints : v1alpha5.Constraints
  Pods : List Pod
  deriving DecidableEq

/-- Modelled from the spec: `binpacking.Packing` is declared outside the sources;
the fields are the ones `Launcher.Launch` reads. -/
structure Packing where
  Constraints : v1alpha5.Constraints
  InstanceTypeOptions : List InstanceType
  NodeQuantity : Nat
  Pods : List (List Pod)
  deriving DecidableEq

/-- A call that leaves the process, with its arguments. -/
inductive Event where
  /-- Go `KubeClient.Get(ctx, name, provisioner)`. -/
  | Get (name : types.NamespacedName)
  /-- Go `KubeClient.List(ctx, pods, client.MatchingFields)` for pods without a node. -/
  | ListPods
  /-- Go `Batcher.Wait(provisioner)`. -/
  | BatcherWait (provisioner : v1alpha5.Provisioner)
  /-- Go `Batcher.Add(provisioner)`. -/
  | BatcherAdd (provisioner : v1alpha5.Provisioner)
  /-- Go `CloudProvider.GetInstanceTypes(ctx, constraints)`. -/
  | GetInstanceTypes (constraints : v1alpha5.Constraints)
  /-- Go `Scheduler.Solve(ctx, provisioner, instanceTypes, pods)`. -/
  | Solve (provisioner : v1alpha5.Provisioner) (instanceTypes : List InstanceType)
      (pods : List Pod)
  /-- Go `Launcher.Launch(ctx, schedules, instanceTypes)`. -/
  | Launch (schedules : List Schedule) (instanceTypes : List InstanceType)
  /-- Go `CoreV1Client.Nodes().Create(ctx, node, opts)`. -/
  | CreateNode (node : Node)
  /-- Go `CoreV1Client.Pods(ns).Bind(ctx, binding, opts)`. -/
  | Bind (ns : String) (binding : Binding)
  deriving DecidableEq

/-- The answers of the collaborators. API clients answer with a single error or none;
the stages of this repository whose code is outside the sources (`GetInstanceTypes`,
`Solve`) answer with a Go pair of value and error. `Launch` stands for
`Launcher.Launch` as a stage of `Controller.Reconcile`: its packer and cloud provider
are outside the sources, so the reconcile loop is modelled for every outcome of it. -/
structure World where
  Get : types.NamespacedName → Except Err v1alpha5.Provisioner
  /-- The answer of `KubeClient.List` for the pods that have no node. -/
  ListPods : Except Err (List Pod)
  GetInstanceTypes : v1alpha5.Constraints → List InstanceType × Error
  Solve : v1alpha5.Provisioner → List InstanceType → List Pod → List Schedule × Error
  Launch : List Schedule → List InstanceType → Error
  /-- The answer of `Nodes().Create`. -/
  CreateNode : Node → Option Err
  /-- The answer of `Pods(ns).Bind` issued by work piece `i` of the bind loop. -/
  Bind : Nat → String → Binding → Option Err

/-- A `context.Context` as `workqueue.ParallelizeUntil` reads it: `Done i` tells
whether the context is observed done when work piece `i` is about to start. -/
structure Context where
  Done : Nat → Bool

/-- A context that is never cancelled. -/
def Context.background : Context :=
  { Done := fun _ => false }

/-- Go `workqueue.ParallelizeUntil(ctx, workers, pieces, doWorkPiece)` over the pieces
`items`: a piece is run unless the context is done when it is about to start. The
result lists, by piece index, what each piece that ran produced; the order in time of
the parallel pieces is not represented. -/
def workqueue.ParallelizeUntil {α β : Type} (ctx : Context) (items : List α)
    (doWorkPiece : Nat → α → β) : List (Option β) :=
  items.enum.map (fun (i, item) => if ctx.Done i then none else some (doWorkPiece i item))

namespace Filter

def GetProvisionablePods (k : Deps) (w : World) (provisioner : v1alpha5.Provisioner) :
    (List Pod × Error) × List Event :=
  match w.ListPods with
  | .error err => (([], [fmt.Errorfw "listing unscheduled pods, " [err]]), [.ListPods])
  | .ok pods =>
    let provisionable :=
      pods.foldl
        (fun provisionable p =>
          if !(isProvisionable k p provisioner).isEmpty then provisionable
          else provisionable ++ [p])
        []
    ((provisionable, []), [.ListPods])

end Filter

/-! ## `controller.go` -/

namespace Controller

/-- Go `Controller.provisionerFor`: fetch the provisioner with `KubeClient.Get` and
return it as fetched; the code applies no defaulting to it. -/
def provisionerFor (w : World) (name : types.NamespacedName) :
    Except Err v1alpha5.Provisioner × List Event :=
  match w.Get name with
  | .error err => (.error err, [.Get name])
  | .ok provisioner => (.ok provisioner, [.Get name])

/-- Go `Controller.Reconcile`: the result, the returned error and the trace of the
calls made. -/
def Reconcile (k : Deps) (w : World) (req : reconcile.Request) :
    (reconcile.Result × Error) × List Event :=
  -- Fetch provisioner
  let (fetched, t₁) := provisionerFor w req.toNamespacedName
  match fetched with
  | .error err =>
    if errors.IsNotFound err then
      (({ Requeue := false }, []), t₁ ++ [.BatcherWait emptyProvisioner])
    else
      (({ Requeue := false }, [err]), t₁)
  | .ok provisioner =>
    -- Wait on a pod batch
    let t₂ := t₁ ++ [.BatcherWait provisioner]
    -- Filter pods
    let ((pods, err), t) := Filter.GetProvisionablePods k w provisioner
    let t₃ := t₂ ++ t
    if !err.isEmpty then
      (({ Requeue := false }, [fmt.Errorfw "filtering pods, " err]), t₃)
    else if pods.length == 0 then
      (({ Requeue := false }, []), t₃)
    else
      -- Get Instance Types Options
      let (instanceTypes, err) := w.GetInstanceTypes provisioner.Spec.Constraints
      let t₄ := t₃ ++ [.GetInstanceTypes provisioner.Spec.Constraints]
      if !err.isEmpty then
        (({ Requeue := false }, [fmt.Errorfw "getting instance types, " err]), t₄)
      else
        -- Separate pods by scheduling constraints
        let (schedules, err) := w.Solve provisioner instanceTypes pods
        let t₅ := t₄ ++ [.Solve provisioner instanceTypes pods]
        if !err.isEmpty then
          (({ Requeue := false }, [fmt.Errorfw "solving scheduling constraints, " err]), t₅)
        else
          -- Launch capacity and bind pods
          let err := w.Launch schedules instanceTypes
          let t₆ := t₅ ++ [.Launch schedules instanceTypes]
          if !err.isEmpty then
            (({ Requeue := false }, err), t₆)
          else
            (({ Requeue := true }, []), t₆)

/-- Go `Controller.podToProvisioner`: the reconcile requests a pod event is mapped to,
and the trace of the calls made. -/
def podToProvisioner (k : Deps) (w : World) (pod : Pod) :
    List reconcile.Request × List Event :=
  if !(Filter.isUnschedulable k pod).isEmpty then
    ([], [])
  else
    let provisionerKey := k.DefaultProvisioner
    let provisionerKey :=
      match pod.Spec.NodeSelector.lookup k.ProvisionerNameLabelKey with
      | some name => { provisionerKey with Name := name }
      | none => provisionerKey
    let (fetched, t₁) := provisionerFor w provisionerKey
    match fetched with
    | .error err =>
      if errors.IsNotFound err then
        -- Queue and batch a reconcile request for a non-existent, empty provisioner
        let notFoundProvisioner := k.DefaultProvisioner.Name
        let notFoundProvisioner :=
          match pod.Spec.NodeSelector.lookup k.ProvisionerNameLabelKey with
          | some name => name
          | none => notFoundProvisioner
        ([{ Namespace := "", Name := notFoundProvisioner }],
          t₁ ++ [.BatcherAdd emptyProvisioner])
      else
        ([], t₁)
    | .ok provisioner =>
      if !(Filter.isProvisionable k pod provisioner).isEmpty then
        ([], t₁)
      else
        ([{ Namespace := "", Name := provisioner.Name }], t₁ ++ [.BatcherAdd provisioner])

end Controller

/-! ## `launcher.go` -/

/-- Modelled from the spec: `functional.UnionStringMaps` is declared outside the
sources; the union of the maps in which the values of the later map win on conflict. -/
def functional.UnionStringMaps (a b : StringMap) : StringMap :=
  b ++ a.filter (fun kv => (b.lookup kv.1).isNone)

namespace Launcher

/-- Go `Launcher.bind`: the returned error and the trace of the API calls made. The
duration histogram that the code observes on return is not represented. -/
def bind (k : Deps) (w : World) (ctx : Context) (node : Node) (pods : List Pod) :
    Error × List Event := Id.run do
  -- Add the Karpenter finalizer to the node to enable the termination workflow
  let node : Node := { node with Finalizers := node.Finalizers ++ [k.TerminationFinalizer] }
  -- Taint not-ready=NoSchedule
  let node : Node :=
    { node with
      Spec := { node.Spec with
        Taints := node.Spec.Taints ++
          [{ Key := k.NotReadyTaintKey, Value := "", Effect := v1.TaintEffectNoSchedule }] } }
  -- Idempotently create a node
  let t₁ : List Event := [.CreateNode node]
  if let some err := w.CreateNode node then
    if !errors.IsAlreadyExists err then
      return ([fmt.Errorfw ("creating node " ++ node.Name ++ ", ") [err]], t₁)
  -- Bind pods
  let pieces :=
    workqueue.ParallelizeUntil ctx pods
      (fun i (pod : Pod) =>
        let binding : Binding :=
          { toTypeMeta := pod.toTypeMeta, toObjectMeta := pod.toObjectMeta,
            Target := node.Name }
        (Event.Bind pod.Namespace binding, w.Bind i pod.Namespace binding))
  -- a piece that did not run leaves its slot of errs nil
  let errs : List Error :=
    pieces.map (fun piece =>
      match piece with
      | some (_, err) => err.toList
      | none => [])
  return (multierr.Combine errs, t₁ ++ pieces.filterMap (fun piece => piece.map Prod.fst))

/-- The per-node callback that `Launcher.Launch` hands to `CloudProvider.Create`:
`pods` is the batch the callback receives from the channel `packedPods`. -/
def Launch.callback (k : Deps) (w : World) (ctx : Context) (packing : Packing)
    (pods : List Pod) (node : Node) : Error × List Event :=
  let node : Node :=
    { node with Labels := functional.UnionStringMaps node.Labels packing.Constraints.Labels }
  let node : Node :=
    { node with Spec := { node.Spec with Taints := node.Spec.Taints ++ packing.Constraints.Taints } }
  bind k w ctx node pods

end Launcher

/-! ## `provider_defaults.go` -/

/-- Modelled from the spec: `Requirements.Keys` is declared outside the sources; the
keys of the requirements. -/
def v1alpha5.Requirements.Keys (r : List NodeSelectorRequirement) : List String :=
  r.map (fun requirement => requirement.Key)

/-- Modelled from the spec: `functional.ContainsString` is declared outside the
sources; whether the slice holds the string. -/
def functional.ContainsString (strings : List String) (candidate : String) : Bool :=
  decide (candidate ∈ strings)

namespace options

/-- The options carried by the context, reduced to the field `Default` reads. -/
structure Options where
  ClusterName : String
  deriving DecidableEq

end options

namespace v1alpha1

def ClusterDiscoveryTagKeyFormat (clusterName : String) : String :=
  "kubernetes.io/cluster/" ++ clusterName

/-- The AWS `v1alpha1.Constraints`: the embedded `v1alpha5.Constraints` and the
selectors of the embedded AWS provider section that `Default` touches. -/
structure Constraints extends v1alpha5.Constraints where
  SubnetSelector : Option StringMap
  SecurityGroupSelector : Option StringMap
  deriving DecidableEq

namespace Constraints

def defaultCapacityTypes (k : Deps) (c : Constraints) : Constraints :=
  if (c.Labels.lookup k.LabelCapacityType).isSome then c
  else if functional.ContainsString (v1alpha5.Requirements.Keys c.Requirements)
      k.LabelCapacityType then c
  else
    { c with
      Requirements := c.Requirements ++
        [{ Key := k.LabelCapacityType, Operator := v1.NodeSelectorOpIn,
           Values := [k.CapacityTypeOnDemand] }] }

def defaultArchitecture (k : Deps) (c : Constraints) : Constraints :=
  if (c.Labels.lookup v1.LabelArchStable).isSome then c
  else if functional.ContainsString (v1alpha5.Requirements.Keys c.Requirements)
      v1.LabelArchStable then c
  else
    { c with
      Requirements := c.Requirements ++
        [{ Key := v1.LabelArchStable, Operator := v1.NodeSelectorOpIn,
           Values := [k.ArchitectureAmd64] }] }

def defaultSubnets (clusterName : String) (c : Constraints) : Constraints :=
  if c.SubnetSelector.isSome then c
  else { c with SubnetSelector := some [(ClusterDiscoveryTagKeyFormat clusterName, "*")] }

def defaultSecurityGroups (clusterName : String) (c : Constraints) : Constraints :=
  if c.SecurityGroupSelector.isSome then c
  else { c with SecurityGroupSelector := some [(ClusterDiscoveryTagKeyFormat clusterName, "*")] }

/-- Go `Constraints.Default(ctx)`; `ctx` carries the options. -/
def Default (k : Deps) (ctx : options.Options) (c : Constraints) : Constraints :=
  let c := defaultArchitecture k c
  let c := defaultCapacityTypes k c
  let c := defaultSubnets ctx.ClusterName c
  let c := defaultSecurityGroups ctx.ClusterName c
  c

end Constraints

end v1alpha1

/-! ## `tags.go` -/

/-- Go map assignment `m[key] = value`: the binding of `key` is replaced, or added when
the map has none. -/
def mapAssign (m : StringMap) (key value : String) : StringMap :=
  m.filter (fun entry => entry.1 != key) ++ [(key, value)]

/-- A Go composite map literal: the entries are assigned in source order, so a later
entry with the key of an earlier one overwrites it. -/
def mapLiteral (entries : List (String × String)) : StringMap :=
  entries.foldl (fun m entry => mapAssign m entry.1 entry.2) []

namespace v1alpha1

/-- Go `fmt.Sprintf(ClusterTagKeyFormat, clusterName)` for the format
`kubernetes.io/cluster/%s`, set on all Kubernetes owned resources. -/
def ClusterTagKeyFormat (clusterName : String) : String :=
  "kubernetes.io/cluster/" ++ clusterName

/-- Go `fmt.Sprintf(KarpenterTagKeyFormat, clusterName)` for the format
`karpenter.sh/cluster/%s`, set on all Karpenter owned resources. -/
def KarpenterTagKeyFormat (clusterName : String) : String :=
  "karpenter.sh/cluster/" ++ clusterName

def ManagedTagsFor (clusterName : String) : StringMap :=
  mapLiteral
    [ ("Name", "karpenter.sh/" ++ clusterName),
      (ClusterTagKeyFormat clusterName, "owned"),
      (KarpenterTagKeyFormat clusterName, "owned") ]

end v1alpha1

/-! ## Concrete values used to evaluate the model -/

/-- The values the constants have in the repository, and pod predicates that read the
`PodScheduled` condition and the owner references. -/
def karpenter : Deps where
  ProvisionerNameLabelKey := "karpenter.sh/provisioner-name"
  DefaultProvisionerName := "default"
  LabelCapacityType := "karpenter.sh/capacity-type"
  ArchitectureAmd64 := "amd64"
  CapacityTypeOnDemand := "on-demand"
  TerminationFinalizer := "karpenter.sh/termination"
  NotReadyTaintKey := "karpenter.sh/not-ready"
  FailedToSchedule := fun p =>
    p.Status.Conditions.any (fun c => c.Type_ == "PodScheduled" && c.Reason == "Unschedulable")
  IsOwnedByDaemonSet := fun p =>
    p.OwnerReferences.any (fun o => o.APIVersion == "apps/v1" && o.Kind == "DaemonSet")
  IsOwnedByNode := fun p =>
    p.OwnerReferences.any (fun o => o.APIVersion == "v1" && o.Kind == "Node")

/-! ## Vocabulary of the specification -/

namespace Spec

/-- The node-affinity terms of a pod: the preferences of the preferred terms, then
the required terms. -/
def nodeAffinityTerms (pod : Pod) : List NodeSelectorTerm :=
  match pod.Spec.Affinity with
  | none => []
  | some affinity =>
    match affinity.NodeAffinity with
    | none => []
    | some nodeAffinity =>
      nodeAffinity.PreferredDuringSchedulingIgnoredDuringExecution.map (fun t => t.Preference)
        ++ (match nodeAffinity.RequiredDuringSchedulingIgnoredDuringExecution with
            | none => []
            | some required => required.NodeSelectorTerms)

/-- The match expressions of a node-affinity term (none when the slice is nil). -/
def matchExpressions (term : NodeSelectorTerm) : List NodeSelectorRequirement :=
  term.MatchExpressions.getD []

/-- The field-match terms of a node-affinity term (none when the slice is nil). -/
def matchFields (term : NodeSelectorTerm) : List NodeSelectorRequirement :=
  term.MatchFields.getD []

/-- Every match expression of the term uses the operator `In` or `NotIn`. -/
def OperatorsSupported (term : NodeSelectorTerm) : Prop :=
  ∀ requirement ∈ matchExpressions term,
    requirement.Operator = v1.NodeSelectorOpIn ∨ requirement.Operator = v1.NodeSelectorOpNotIn

/-- A node-affinity term, in the words of the specification: it has no matchFields, that
is it carries no field-match term, and uses only the operators `In` and `NotIn`. -/
def TermSupported (term : NodeSelectorTerm) : Prop :=
  matchFields term = [] ∧ OperatorsSupported term

/-- A node-affinity term as the filter admits it: its `MatchFields` slice is nil (a
non-nil slice is not admitted, even when it is empty) and it uses only the operators `In`
and `NotIn`. -/
def TermAdmitted (term : NodeSelectorTerm) : Prop :=
  term.MatchFields = none ∧ OperatorsSupported term

/-- Rule 1: the pod carries the failed-to-schedule signal. -/
def Unplaceable (k : Deps) (pod : Pod) : Prop :=
  k.FailedToSchedule pod = true

/-- Rule 2: the pod is not owned by a daemonset and not owned by a node. -/
def NotOwned (k : Deps) (pod : Pod) : Prop :=
  k.IsOwnedByDaemonSet pod = false ∧ k.IsOwnedByNode pod = false

/-- Rule 3: the pod targets the provisioner: its node selector names the provisioner,
or it names none and the provisioner is the default one. -/
def Targets (k : Deps) (pod : Pod) (provisioner : v1alpha5.Provisioner) : Prop :=
  pod.Spec.NodeSelector.lookup k.ProvisionerNameLabelKey = some provisioner.Name ∨
  (pod.Spec.NodeSelector.lookup k.ProvisionerNameLabelKey = none ∧
    provisioner.Name = k.DefaultProvisionerName)

/-- Rule 4 in the words of the specification: no pod affinity, no pod anti-affinity,
every node-affinity term without matchFields and with the operators `In` and `NotIn`
only, every topology-spread constraint on the hostname or the zone key. -/
def Supported (pod : Pod) : Prop :=
  (∀ affinity ∈ pod.Spec.Affinity,
    affinity.PodAffinity = none ∧ affinity.PodAntiAffinity = none) ∧
  (∀ term ∈ nodeAffinityTerms pod, TermSupported term) ∧
  (∀ constraint ∈ pod.Spec.TopologySpreadConstraints,
    constraint.TopologyKey = v1.LabelHostname ∨ constraint.TopologyKey = v1.LabelTopologyZone)

/-- Rule 4 as the filter applies it: as `Supported`, with every node-affinity term
admitted only when its `MatchFields` slice is nil. -/
def Admitted (pod : Pod) : Prop :=
  (∀ affinity ∈ pod.Spec.Affinity,
    affinity.PodAffinity = none ∧ affinity.PodAntiAffinity = none) ∧
  (∀ term ∈ nodeAffinityTerms pod, TermAdmitted term) ∧
  (∀ constraint ∈ pod.Spec.TopologySpreadConstraints,
    constraint.TopologyKey = v1.LabelHostname ∨ constraint.TopologyKey = v1.LabelTopologyZone)

/-- A pod is provisionable for a provisioner, in the words of the specification, when
rules 1 to 4 hold. -/
def Provisionable (k : Deps) (pod : Pod) (provisioner : v1alpha5.Provisioner) : Prop :=
  Unplaceable k pod ∧ NotOwned k pod ∧ Targets k pod provisioner ∧ Supported pod

/-- A pod is admissible for a provisioner when rules 1 to 3 hold and rule 4 holds as the
filter applies it. -/
def Admissible (k : Deps) (pod : Pod) (provisioner : v1alpha5.Provisioner) : Prop :=
  Unplaceable k pod ∧ NotOwned k pod ∧ Targets k pod provisioner ∧ Admitted pod

instance (term : NodeSelectorTerm) : Decidable (OperatorsSupported term) := by
  unfold OperatorsSupported; infer_instance

instance (term : NodeSelectorTerm) : Decidable (TermSupported term) := by
  unfold TermSupported; infer_instance

instance (term : NodeSelectorTerm) : Decidable (TermAdmitted term) := by
  unfold TermAdmitted; infer_instance

instance (k : Deps) (pod : Pod) : Decidable (Unplaceable k pod) := by
  unfold Unplaceable; infer_instance

instance (k : Deps) (pod : Pod) : Decidable (NotOwned k pod) := by
  unfold NotOwned; infer_instance

instance (k : Deps) (pod : Pod) (provisioner : v1alpha5.Provisioner) :
    Decidable (Targets k pod provisioner) := by
  unfold Targets; infer_instance

instance (pod : Pod) : Decidable (Supported pod) := by
  unfold Supported; infer_instance

instance (pod : Pod) : Decidable (Admitted pod) := by
  unfold Admitted; infer_instance

instance (k : Deps) (pod : Pod) (provisioner : v1alpha5.Provisioner) :
    Decidable (Provisionable k pod provisioner) := by
  unfold Provisionable; infer_instance

instance (k : Deps) (pod : Pod) (provisioner : v1alpha5.Provisioner) :
    Decidable (Admissible k pod provisioner) := by
  unfold Admissible; infer_instance

end Spec

/-- The operator of a requirement lies outside `In` and `NotIn`. -/
def unsupportedOperator (requirement : NodeSelectorRequirement) : Bool :=
  !decide (requirement.Operator ∈ [v1.NodeSelectorOpIn, v1.NodeSelectorOpNotIn])

/-- The key of a topology-spread constraint lies outside hostname and zone. -/
def unsupportedKey (constraint : TopologySpreadConstraint) : Bool :=
  !decide (constraint.TopologyKey ∈ [v1.LabelHostname, v1.LabelTopologyZone])

/-- The error `validateNodeSelectorTerm` reports for an unsupported operator. -/
def operatorErr (requirement : NodeSelectorRequirement) : Err :=
  .errorf ("unsupported operator, " ++ requirement.Operator)

/-- The error `validateTopology` reports for an unsupported key. -/
def topologyErr (constraint : TopologySpreadConstraint) : Err :=
  .errorf ("unsupported topology key, " ++ constraint.TopologyKey ++ " not in "
    ++ supportedTopologyKeysText)

/-- The target provisioner name of a pod: the value of its provisioner node-selector
entry, or the default provisioner name when the entry is absent. -/
def Spec.targetName (k : Deps) (pod : Pod) : String :=
  (pod.Spec.NodeSelector.lookup k.ProvisionerNameLabelKey).getD k.DefaultProvisionerName

/-- The key under which `podToProvisioner` fetches the provisioner of a pod. -/
def Spec.targetKey (k : Deps) (pod : Pod) : types.NamespacedName :=
  { Namespace := "", Name := Spec.targetName k pod }

/-- The number of rule violations of a pod for a provisioner, the three checks of
`isUnschedulable` counted as one: a violated scheduling or ownership rule, pod affinity,
pod anti-affinity, each node-affinity term with matchFields, each match expression with
an unsupported operator, each topology-spread constraint with an unsupported key, and
targeting another provisioner. -/
def Spec.violations (k : Deps) (pod : Pod) (provisioner : v1alpha5.Provisioner) : Nat :=
  (if Spec.Unplaceable k pod ∧ Spec.NotOwned k pod then 0 else 1)
  + (match pod.Spec.Affinity with
     | none => 0
     | some affinity =>
       (if affinity.PodAffinity.isSome then 1 else 0)
         + (if affinity.PodAntiAffinity.isSome then 1 else 0))
  + ((Spec.nodeAffinityTerms pod).map (fun term =>
       (if term.MatchFields.isSome then 1 else 0)
         + ((Spec.matchExpressions term).filter unsupportedOperator).length)).sum
  + (pod.Spec.TopologySpreadConstraints.filter unsupportedKey).length
  + (if Spec.Targets k pod provisioner then 0 else 1)

/-- The key is unspecified in the constraints: it is neither a label nor the key of a
requirement. -/
def Spec.Unspecified (c : v1alpha1.Constraints) (key : String) : Prop :=
  c.Labels.lookup key = none ∧ ∀ requirement ∈ c.Requirements, requirement.Key ≠ key

instance (c : v1alpha1.Constraints) (key : String) : Decidable (Spec.Unspecified c key) := by
  unfold Spec.Unspecified; infer_instance

/-- The node as `Launcher.bind` submits it for creation: the termination finalizer and
the not-ready taint appended. -/
def Spec.registered (k : Deps) (node : Node) : Node :=
  { node with
    Finalizers := node.Finalizers ++ [k.TerminationFinalizer],
    Spec := { node.Spec with
      Taints := node.Spec.Taints ++
        [{ Key := k.NotReadyTaintKey, Value := "", Effect := v1.TaintEffectNoSchedule }] } }

/-- The binding of a pod to the node of the given name. -/
def Spec.bindingFor (pod : Pod) (nodeName : String) : Binding :=
  { toTypeMeta := pod.toTypeMeta, toObjectMeta := pod.toObjectMeta, Target := nodeName }

/-- The bind call issued for a pod of the batch. -/
def Spec.bindCall (nodeName : String) (pod : Pod) : Event :=
  .Bind pod.Namespace (Spec.bindingFor pod nodeName)

/-- The answer of the API server to the bind call issued for the pod at a position of
the batch. -/
def Spec.bindAnswer (w : World) (nodeName : String) (piece : Nat × Pod) : Option Err :=
  w.Bind piece.1 piece.2.Namespace (Spec.bindingFor piece.2 nodeName)

/-- The outcome of the bind loop of `Launcher.bind` once the creation has succeeded or
has been tolerated. -/
def Launcher.bindLoop (k : Deps) (w : World) (ctx : Context) (node : Node) (pods : List Pod) :
    Error × List Event :=
  let pieces :=
    workqueue.ParallelizeUntil ctx pods (fun i (pod : Pod) =>
      (Spec.bindCall node.Name pod, Spec.bindAnswer w node.Name (i, pod)))
  (multierr.Combine (pieces.map (fun piece =>
      match piece with
      | some (_, err) => err.toList
      | none => [])),
    [Event.CreateNode (Spec.registered k node)]
      ++ pieces.filterMap (fun piece => piece.map Prod.fst))

/-- The pods of a listing that the filter admits for a provisioner, in list order. -/
def Spec.provisionablePods (k : Deps) (provisioner : v1alpha5.Provisioner)
    (listed : List Pod) : List Pod :=
  listed.filter (fun p => decide (Spec.Admissible k p provisioner))

/-- The answer of the instance-type fetch for a provisioner. -/
def Spec.fetched (w : World) (provisioner : v1alpha5.Provisioner) :
    List InstanceType × Error :=
  w.GetInstanceTypes provisioner.Spec.Constraints

/-- The answer of `Solve` for the provisionable pods of a listing. -/
def Spec.solved (k : Deps) (w : World) (provisioner : v1alpha5.Provisioner)
    (listed : List Pod) : List Schedule × Error :=
  w.Solve provisioner (Spec.fetched w provisioner).1 (Spec.provisionablePods k provisioner listed)

/-- The answer of `Launch` for the schedules of `Solve`. -/
def Spec.launched (k : Deps) (w : World) (provisioner : v1alpha5.Provisioner)
    (listed : List Pod) : Error :=
  w.Launch (Spec.solved k w provisioner listed).1 (Spec.fetched w provisioner).1

/-- The first failing stage that `Controller.Reconcile` reaches is one of: the
provisioner fetch with an error other than not-found, the pod listing, the instance-type
fetch, `Solve`, or `Launch`. -/
def Spec.ReconcileFails (k : Deps) (w : World) (req : reconcile.Request) : Prop :=
  match w.Get req.toNamespacedName with
  | .error err => errors.IsNotFound err = false
  | .ok provisioner =>
    match w.ListPods with
    | .error _ => True
    | .ok listed =>
      Spec.provisionablePods k provisioner listed ≠ [] ∧
      ((Spec.fetched w provisioner).2 ≠ [] ∨
        (Spec.solved k w provisioner listed).2 ≠ [] ∨
        Spec.launched k w provisioner listed ≠ [])

/-- The calls of a complete reconciliation, in order: fetch the provisioner, wait on
the batch, list the pods, fetch the instance types, solve, launch. -/
def Spec.stages (k : Deps) (w : World) (req : reconcile.Request)
    (provisioner : v1alpha5.Provisioner) (listed : List Pod) : List Event :=
  [.Get req.toNamespacedName,
   .BatcherWait provisioner,
   .ListPods,
   .GetInstanceTypes provisioner.Spec.Constraints,
   .Solve provisioner (Spec.fetched w provisioner).1 (Spec.provisionablePods k provisioner listed),
   .Launch (Spec.solved k w provisioner listed).1 (Spec.fetched w provisioner).1]

/-- The number of reasons of an aggregate that have the given text. -/
def Spec.occurrences (text : String) (errs : Error) : Nat :=
  errs.countP (fun e => e.Error == text)

/-- The reason for the scheduling and ownership rules: that of the first rule violated,
in the order not yet marked failed-to-schedule, owned by a daemonset, owned by a node;
none when the three rules hold. -/
def Spec.schedulingReasons (k : Deps) (pod : Pod) : List Err :=
  if k.FailedToSchedule pod = false then [.errorf "awaiting scheduling"]
  else if k.IsOwnedByDaemonSet pod = true then [.errorf "owned by daemonset"]
  else if k.IsOwnedByNode pod = true then [.errorf "owned by node"]
  else []

/-- The pod sets pod affinity: its `Affinity.PodAffinity` is non-nil. -/
def Spec.hasPodAffinity (pod : Pod) : Bool :=
  match pod.Spec.Affinity with
  | none => false
  | some affinity => affinity.PodAffinity.isSome

/-- The pod sets pod anti-affinity: its `Affinity.PodAntiAffinity` is non-nil. -/
def Spec.hasPodAntiAffinity (pod : Pod) : Bool :=
  match pod.Spec.Affinity with
  | none => false
  | some affinity => affinity.PodAntiAffinity.isSome

/-- The node-affinity term sets matchFields: its `MatchFields` slice is non-nil. -/
def Spec.setsMatchFields (term : NodeSelectorTerm) : Bool :=
  term.MatchFields.isSome

/-- The match expressions of all node-affinity terms of a pod, term by term. -/
def Spec.allMatchExpressions (pod : Pod) : List NodeSelectorRequirement :=
  ((Spec.nodeAffinityTerms pod).map Spec.matchExpressions).flatten

/-- The reasons for one node-affinity term: one when it sets matchFields, then one for
each of its match expressions with an operator outside `In` and `NotIn`, in order. -/
def Spec.termReasons (term : NodeSelectorTerm) : List Err :=
  (if Spec.setsMatchFields term then [Err.errorf "matchFields is not supported"] else [])
    ++ ((Spec.matchExpressions term).filter unsupportedOperator).map operatorErr

/-- The name the provisioner node-selector entry of a pod holds, empty when the pod has
no such entry. -/
def Spec.selectedName (k : Deps) (pod : Pod) : String :=
  (pod.Spec.NodeSelector.lookup k.ProvisionerNameLabelKey).getD ""

/-- The reasons of the aggregate, one for each violation: the reason for the scheduling
and ownership rules, then pod affinity, pod anti-affinity, the reasons of each
node-affinity term, one for each topology-spread constraint with an unsupported key, and
one for targeting another provisioner. -/
def Spec.reasons (k : Deps) (pod : Pod) (provisioner : v1alpha5.Provisioner) : List Err :=
  Spec.schedulingReasons k pod
    ++ (if Spec.hasPodAffinity pod then [Err.errorf "pod affinity is not supported"] else [])
    ++ (if Spec.hasPodAntiAffinity pod then
          [Err.errorf "pod anti-affinity is not supported"] else [])
    ++ ((Spec.nodeAffinityTerms pod).map Spec.termReasons).flatten
    ++ (pod.Spec.TopologySpreadConstraints.filter unsupportedKey).map topologyErr
    ++ (if Spec.Targets k pod provisioner then []
        else [Err.errorf ("matched another provisioner, " ++ Spec.selectedName k pod)])

/-! ## Example data -/

namespace Example

/-- The `PodScheduled` condition of a pod the scheduler could not place. -/
def unschedulable : List PodCondition :=
  [{ Type_ := "PodScheduled", Status := "False", Reason := "Unschedulable" }]

/-- A pod with the given name, node selector, affinity, topology-spread constraints,
conditions and owners. -/
def pod (name : String) (nodeSelector : StringMap) (affinity : Option Affinity)
    (constraints : List TopologySpreadConstraint) (conditions : List PodCondition)
    (owners : List OwnerReference) : Pod :=
  { Kind := "Pod", APIVersion := "v1", Name := name, Namespace := "default", Labels := [],
    OwnerReferences := owners, Finalizers := [],
    Spec := { NodeName := "", NodeSelector := nodeSelector, Affinity := affinity,
              TopologySpreadConstraints := constraints },
    Status := { Conditions := conditions } }

/-- A provisioner with the given name and no constraints. -/
def provisioner (name : String) : v1alpha5.Provisioner :=
  { emptyProvisioner with Name := name }

/-- An unschedulable pod that names no provisioner. -/
def plainPod : Pod := pod "plain" [] none [] unschedulable []

/-- An unschedulable pod whose node selector names provisioner `a`. -/
def podA : Pod := pod "pod-a" [("karpenter.sh/provisioner-name", "a")] none [] unschedulable []

/-- An unschedulable pod whose node selector names provisioner `b`. -/
def podB : Pod := pod "pod-b" [("karpenter.sh/provisioner-name", "b")] none [] unschedulable []

/-- A world in which the provisioners `default` and `a` exist, the three pods above are
unbound, and every call succeeds. -/
def world : World where
  Get := fun name =>
    if name.Name = "default" ∨ name.Name = "a" then .ok (provisioner name.Name)
    else .error (.status .NotFound ("provisioners \"" ++ name.Name ++ "\" not found"))
  ListPods := .ok [plainPod, podA, podB]
  GetInstanceTypes := fun _ => ([{ Name := "m5.large" }], [])
  Solve := fun p _ pods => ([{ Constraints := p.Spec.Constraints, Pods := pods }], [])
  Launch := fun _ _ => []
  CreateNode := fun _ => none
  Bind := fun _ _ _ => none

end Example

/-- A pod that the scheduler has not yet marked unschedulable and that a daemonset
owns. -/
def Example.daemonPod : Pod :=
  Example.pod "daemon" [] none [] []
    [{ APIVersion := "apps/v1", Kind := "DaemonSet", Name := "node-exporter" }]

/-- Constraints that pin the architecture by a label and specify nothing else. -/
def Example.armConstraints : v1alpha1.Constraints :=
  { Labels := [("kubernetes.io/arch", "arm64")], Taints := [], Requirements := [],
    SubnetSelector := none, SecurityGroupSelector := some [("Name", "nodes")] }

/-- A node as the cloud provider hands it to the callback. -/
def Example.node : Node :=
  { Name := "ip-10-0-0-1", Namespace := "", Labels := [], OwnerReferences := [],
    Finalizers := [], Spec := { Taints := [] } }

/-- A world in which the node exists already and every bind succeeds. -/
def Example.existingNodeWorld : World :=
  { Example.world with
    CreateNode := fun node =>
      some (.status .AlreadyExists ("nodes \"" ++ node.Name ++ "\" already exists")) }

/-- A world in which the creation of a node is forbidden. -/
def Example.forbiddenWorld : World :=
  { Example.world with
    CreateNode := fun _ => some (.status .Forbidden "nodes is forbidden") }

/-- A world in which the node is created and the bind of `pod-a` fails. -/
def Example.failingBindWorld : World :=
  { Example.world with
    Bind := fun _ _ binding =>
      if binding.Name = "pod-a" then some (.status .Conflict "pod pod-a is being deleted")
      else none }

/-- A context that is observed done before every work piece. -/
def Example.cancelled : Context :=
  { Done := fun _ => true }

/-- An unschedulable pod that names no provisioner and sets pod affinity. -/
def Example.affinityPod : Pod :=
  Example.pod "with-affinity" []
    (some { NodeAffinity := none,
            PodAffinity := some { RequiredDuringSchedulingIgnoredDuringExecution :=
              [{ TopologyKey := "kubernetes.io/hostname" }] },
            PodAntiAffinity := none })
    [] Example.unschedulable []

/-- A world like the example world whose listing also holds the pod with pod
affinity. -/
def Example.affinityWorld : World :=
  { Example.world with ListPods := .ok [Example.affinityPod, Example.plainPod] }

/-- The reconcile request for the provisioner of the given name. -/
def Example.request (name : String) : reconcile.Request :=
  { Namespace := "", Name := name }

/-- A pod owned by a node that names provisioner `x`, sets pod affinity and pod
anti-affinity, has two required node-affinity terms that set matchFields, the first with
the operator `Exists`, and spreads over the unsupported topology key `rack`. -/
def Example.unsupportedPod : Pod :=
  Example.pod "unsupported" [("karpenter.sh/provisioner-name", "x")]
    (some
      { NodeAffinity := some
          { RequiredDuringSchedulingIgnoredDuringExecution := some
              { NodeSelectorTerms :=
                  [{ MatchExpressions := some
                       [{ Key := "size", Operator := "Exists", Values := [] },
                        { Key := "size", Operator := "In", Values := ["large"] }],
                     MatchFields := some [] },
                   { MatchExpressions := none,
                     MatchFields := some
                       [{ Key := "metadata.name", Operator := "In",
                          Values := ["ip-10-0-0-1"] }] }] },
            PreferredDuringSchedulingIgnoredDuringExecution :=
              [{ Weight := 1,
                 Preference := { MatchExpressions := none, MatchFields := none } }] },
        PodAffinity := some { RequiredDuringSchedulingIgnoredDuringExecution := [] },
        PodAntiAffinity := some { RequiredDuringSchedulingIgnoredDuringExecution := [] } })
    [{ MaxSkew := 1, TopologyKey := "rack" },
     { MaxSkew := 1, TopologyKey := "kubernetes.io/hostname" }]
    Example.unschedulable
    [{ APIVersion := "v1", Kind := "Node", Name := "ip-10-0-0-1" }]

/-- An unschedulable pod that names no provisioner and whose only node-affinity term
has no match expression and a `MatchFields` slice that is non-nil and empty. -/
def Example.emptyFieldsPod : Pod :=
  Example.pod "empty-fields" []
    (some
      { NodeAffinity := some
          { RequiredDuringSchedulingIgnoredDuringExecution := some
              { NodeSelectorTerms := [{ MatchExpressions := none, MatchFields := some [] }] },
            PreferredDuringSchedulingIgnoredDuringExecution := [] },
        PodAffinity := none,
        PodAntiAffinity := none })
    [] Example.unschedulable []

/-- A world like the example world whose listing holds the pod with the empty
`MatchFields` slice and a plain pod. -/
def Example.emptyFieldsWorld : World :=
  { Example.world with ListPods := .ok [Example.emptyFieldsPod, Example.plainPod] }

/-- An error that wraps an aggregate whose first leaf is an API status of unknown
reason and whose second leaf is a not-found status. -/
def Example.shadowedNotFound : Err :=
  fmt.Errorfw "fetching provisioner, "
    [.status .Unknown "the server is unavailable",
     .status .NotFound "provisioners \"default\" not found"]

/-- An error that wraps an aggregate whose first leaf is an API status of unknown
reason and whose second leaf is an already-exists status. -/
def Example.shadowedAlreadyExists : Err :=
  fmt.Errorfw "registering node, "
    [.status .Unknown "the server is unavailable",
     .status .AlreadyExists "nodes \"ip-10-0-0-1\" already exists"]

/-- A world like the example world in which every fetch of a provisioner fails with
the error that hides a not-found status behind a status of unknown reason. -/
def Example.shadowedNotFoundWorld : World :=
  { Example.world with Get := fun _ => .error Example.shadowedNotFound }

/-- A world like the example world in which the creation of a node fails with the
error that hides an already-exists status behind a status of unknown reason. -/
def Example.shadowedExistsWorld : World :=
  { Example.world with CreateNode := fun _ => some Example.shadowedAlreadyExists }

/-! ## Lemmas on the loops of the filter -/

theorem foldl_append_if {α : Type} (c : α → Bool) (g : α → Err) (l : List α) (init : Error) :
    l.foldl (fun errs x => if c x then errs ++ [g x] else errs) init
      = init ++ (l.filter c).map g := by
  induction l generalizing init with
  | nil => simp
  | cons x xs ih =>
    simp only [List.foldl_cons, ih, List.filter_cons]
    cases c x <;> simp

theorem foldl_append_all {α : Type} (f : α → Error) (l : List α) (init : Error) :
    l.foldl (fun errs x => errs ++ f x) init = init ++ (l.map f).flatten := by
  induction l generalizing init with
  | nil => simp
  | cons x xs ih =>
    simp only [List.foldl_cons, ih, List.map_cons, List.flatten_cons, List.append_assoc]

theorem foldl_keep {α : Type} (c : α → Bool) (l : List α) (init : List α) :
    l.foldl (fun acc x => if c x then acc else acc ++ [x]) init
      = init ++ l.filter (fun x => !c x) := by
  induction l generalizing init with
  | nil => simp
  | cons x xs ih =>
    simp only [List.foldl_cons, ih, List.filter_cons]
    cases c x <;> simp

theorem validateNodeSelectorTerm_eq (term : NodeSelectorTerm) :
    validateNodeSelectorTerm term
      = (if term.MatchFields.isSome then [Err.errorf "matchFields is not supported"] else [])
        ++ ((Spec.matchExpressions term).filter unsupportedOperator).map operatorErr := by
  unfold validateNodeSelectorTerm Spec.matchExpressions
  cases hme : term.MatchExpressions with
  | none => simp [multierr.Append]
  | some es =>
    simp only [Option.getD_some, multierr.Append]
    exact (foldl_append_if unsupportedOperator operatorErr es _).trans (by simp)

theorem validateTopology_eq (pod : Pod) :
    Filter.validateTopology pod
      = (pod.Spec.TopologySpreadConstraints.filter unsupportedKey).map topologyErr := by
  unfold Filter.validateTopology
  simp only [multierr.Append]
  exact (foldl_append_if unsupportedKey topologyErr _ []).trans (by simp)

theorem validateAffinity_eq (pod : Pod) :
    Filter.validateAffinity pod
      = (match pod.Spec.Affinity with
         | none => []
         | some affinity =>
           (if affinity.PodAffinity.isSome then
              [Err.errorf "pod affinity is not supported"] else [])
           ++ (if affinity.PodAntiAffinity.isSome then
              [Err.errorf "pod anti-affinity is not supported"] else []))
        ++ ((Spec.nodeAffinityTerms pod).map validateNodeSelectorTerm).flatten := by
  unfold Filter.validateAffinity Spec.nodeAffinityTerms
  cases h₁ : pod.Spec.Affinity with
  | none => simp
  | some affinity =>
    obtain ⟨nodeAffinity, podAffinity, podAntiAffinity⟩ := affinity
    cases nodeAffinity with
    | none => cases podAffinity <;> cases podAntiAffinity <;> simp [multierr.Append]
    | some nodeAffinity =>
      obtain ⟨required, preferred⟩ := nodeAffinity
      cases required <;> cases podAffinity <;> cases podAntiAffinity <;>
        simp [foldl_append_all, multierr.Append, Function.comp_def]

theorem isProvisionable_eq (k : Deps) (pod : Pod) (provisioner : v1alpha5.Provisioner) :
    Filter.isProvisionable k pod provisioner
      = Filter.isUnschedulable k pod ++ (Filter.validateAffinity pod
          ++ (Filter.validateTopology pod ++ Filter.matchesProvisioner k pod provisioner)) := by
  simp [Filter.isProvisionable, multierr.Combine]

theorem isUnschedulable_eq_nil_iff (k : Deps) (pod : Pod) :
    Filter.isUnschedulable k pod = [] ↔ Spec.Unplaceable k pod ∧ Spec.NotOwned k pod := by
  unfold Filter.isUnschedulable Spec.Unplaceable Spec.NotOwned
  cases k.FailedToSchedule pod <;> cases k.IsOwnedByDaemonSet pod <;>
    cases k.IsOwnedByNode pod <;> simp

theorem matchesProvisioner_eq_nil_iff (k : Deps) (pod : Pod)
    (provisioner : v1alpha5.Provisioner) :
    Filter.matchesProvisioner k pod provisioner = [] ↔ Spec.Targets k pod provisioner := by
  unfold Filter.matchesProvisioner Spec.Targets
  cases h : pod.Spec.NodeSelector.lookup k.ProvisionerNameLabelKey with
  | none =>
    by_cases hd : provisioner.Name = k.DefaultProvisionerName <;> simp [hd]
  | some name =>
    by_cases hn : provisioner.Name = name
    · simp [hn]
    · have hn' : ¬ name = provisioner.Name := fun e => hn e.symm
      simp [hn, hn']

theorem validateNodeSelectorTerm_eq_nil_iff (term : NodeSelectorTerm) :
    validateNodeSelectorTerm term = [] ↔ Spec.TermAdmitted term := by
  rw [validateNodeSelectorTerm_eq]
  unfold Spec.TermAdmitted Spec.OperatorsSupported
  cases term.MatchFields <;>
    simp [List.filter_eq_nil_iff, unsupportedOperator, or_iff_not_imp_left]

theorem validateTopology_eq_nil_iff (pod : Pod) :
    Filter.validateTopology pod = [] ↔
      ∀ constraint ∈ pod.Spec.TopologySpreadConstraints,
        constraint.TopologyKey = v1.LabelHostname ∨
          constraint.TopologyKey = v1.LabelTopologyZone := by
  rw [validateTopology_eq]
  simp [List.filter_eq_nil_iff, unsupportedKey, or_iff_not_imp_left]

theorem validateAffinity_eq_nil_iff (pod : Pod) :
    Filter.validateAffinity pod = [] ↔
      (∀ affinity ∈ pod.Spec.Affinity,
        affinity.PodAffinity = none ∧ affinity.PodAntiAffinity = none) ∧
      (∀ term ∈ Spec.nodeAffinityTerms pod, Spec.TermAdmitted term) := by
  rw [validateAffinity_eq, List.append_eq_nil, List.flatten_eq_nil_iff]
  refine and_congr ?_ ?_
  · cases pod.Spec.Affinity with
    | none => simp
    | some affinity =>
      cases affinity.PodAffinity <;> cases affinity.PodAntiAffinity <;> simp
  · simp [validateNodeSelectorTerm_eq_nil_iff]

theorem isProvisionable_eq_nil_iff (k : Deps) (pod : Pod)
    (provisioner : v1alpha5.Provisioner) :
    Filter.isProvisionable k pod provisioner = [] ↔ Spec.Admissible k pod provisioner := by
  rw [isProvisionable_eq]
  simp only [List.append_eq_nil, isUnschedulable_eq_nil_iff, matchesProvisioner_eq_nil_iff,
    validateTopology_eq_nil_iff, validateAffinity_eq_nil_iff]
  unfold Spec.Admissible Spec.Admitted
  tauto

theorem GetProvisionablePods_ok (k : Deps) (w : World) (provisioner : v1alpha5.Provisioner)
    (pods : List Pod) (h : w.ListPods = .ok pods) :
    Filter.GetProvisionablePods k w provisioner
      = ((pods.filter (fun p => decide (Spec.Admissible k p provisioner)), []),
          [.ListPods]) := by
  unfold Filter.GetProvisionablePods
  rw [h]
  simp only [foldl_keep, List.nil_append]
  congr 2
  apply List.filter_congr
  intro p _
  have := isProvisionable_eq_nil_iff k p provisioner
  by_cases hp : Spec.Admissible k p provisioner
  · simp [hp, this.mpr hp]
  · have hne : Filter.isProvisionable k p provisioner ≠ [] := fun e => hp (this.mp e)
    simp [hp, hne]

theorem mem_GetProvisionablePods (k : Deps) (w : World) (provisioner : v1alpha5.Provisioner)
    (pod : Pod) (h : pod ∈ (Filter.GetProvisionablePods k w provisioner).1.1) :
    Filter.isProvisionable k pod provisioner = [] := by
  cases hl : w.ListPods with
  | error err => simp [Filter.GetProvisionablePods, hl] at h
  | ok pods =>
    rw [GetProvisionablePods_ok k w provisioner pods hl] at h
    simp only [List.mem_filter, decide_eq_true_eq] at h
    exact (isProvisionable_eq_nil_iff k pod provisioner).mpr h.2

theorem targets_name (k : Deps) (pod : Pod) (provisioner : v1alpha5.Provisioner)
    (h : Spec.Targets k pod provisioner) : provisioner.Name = Spec.targetName k pod := by
  unfold Spec.targetName
  rcases h with h | ⟨h, hd⟩
  · simp [h]
  · simp [h, hd]

theorem isProvisionable_name (k : Deps) (pod : Pod) (provisioner : v1alpha5.Provisioner)
    (h : Filter.isProvisionable k pod provisioner = []) :
    provisioner.Name = Spec.targetName k pod :=
  targets_name k pod provisioner ((isProvisionable_eq_nil_iff k pod provisioner).mp h).2.2.1

theorem podToProvisioner_requests (k : Deps) (w : World) (pod : Pod) :
    (Controller.podToProvisioner k w pod).1
      = if (Filter.isUnschedulable k pod).isEmpty &&
            (match w.Get (Spec.targetKey k pod) with
             | .error err => errors.IsNotFound err
             | .ok provisioner => (Filter.isProvisionable k pod provisioner).isEmpty)
        then [{ Namespace := "", Name := Spec.targetName k pod }] else [] := by
  unfold Controller.podToProvisioner Controller.provisionerFor Spec.targetKey Spec.targetName
    Deps.DefaultProvisioner
  cases hu : (Filter.isUnschedulable k pod).isEmpty
  · simp
  · cases hl : pod.Spec.NodeSelector.lookup k.ProvisionerNameLabelKey with
    | none =>
      simp only [Bool.not_true, Bool.false_eq_true, if_false, Option.getD_none, Bool.true_and]
      cases hg : w.Get { Namespace := "", Name := k.DefaultProvisionerName } with
      | error err => cases hnf : errors.IsNotFound err <;> simp [hnf]
      | ok provisioner =>
        cases hp : (Filter.isProvisionable k pod provisioner).isEmpty
        · simp [hp]
        · have := isProvisionable_name k pod provisioner (List.isEmpty_iff.mp hp)
          simp [hp, this, Spec.targetName, hl]
    | some name =>
      simp only [Bool.not_true, Bool.false_eq_true, if_false, Option.getD_some, Bool.true_and]
      cases hg : w.Get { Namespace := "", Name := name } with
      | error err => cases hnf : errors.IsNotFound err <;> simp [hnf]
      | ok provisioner =>
        cases hp : (Filter.isProvisionable k pod provisioner).isEmpty
        · simp [hp]
        · have := isProvisionable_name k pod provisioner (List.isEmpty_iff.mp hp)
          simp [hp, this, Spec.targetName, hl]

theorem isUnschedulable_length (k : Deps) (pod : Pod) :
    (Filter.isUnschedulable k pod).length
      = if Spec.Unplaceable k pod ∧ Spec.NotOwned k pod then 0 else 1 := by
  rcases Bool.eq_false_or_eq_true (k.FailedToSchedule pod) with h₁ | h₁ <;>
    rcases Bool.eq_false_or_eq_true (k.IsOwnedByDaemonSet pod) with h₂ | h₂ <;>
    rcases Bool.eq_false_or_eq_true (k.IsOwnedByNode pod) with h₃ | h₃ <;>
    simp [Filter.isUnschedulable, Spec.Unplaceable, Spec.NotOwned, h₁, h₂, h₃]

theorem matchesProvisioner_eq (k : Deps) (pod : Pod) (provisioner : v1alpha5.Provisioner) :
    Filter.matchesProvisioner k pod provisioner
      = if Spec.Targets k pod provisioner then []
        else [Err.errorf ("matched another provisioner, "
          ++ (pod.Spec.NodeSelector.lookup k.ProvisionerNameLabelKey).getD "")] := by
  by_cases ht : Spec.Targets k pod provisioner
  · rw [if_pos ht]
    exact (matchesProvisioner_eq_nil_iff k pod provisioner).mpr ht
  · rw [if_neg ht]
    unfold Spec.Targets at ht
    unfold Filter.matchesProvisioner
    rcases h : pod.Spec.NodeSelector.lookup k.ProvisionerNameLabelKey with _ | name
    · rw [h] at ht
      have hd : ¬ provisioner.Name = k.DefaultProvisionerName := fun e => ht (Or.inr ⟨rfl, e⟩)
      simp [hd]
    · rw [h] at ht
      have hn : ¬ provisioner.Name = name := fun e => ht (Or.inl (by rw [e]))
      simp [hn]

theorem matchesProvisioner_length (k : Deps) (pod : Pod) (provisioner : v1alpha5.Provisioner) :
    (Filter.matchesProvisioner k pod provisioner).length
      = if Spec.Targets k pod provisioner then 0 else 1 := by
  rw [matchesProvisioner_eq]
  split <;> rfl

theorem validateNodeSelectorTerm_length (term : NodeSelectorTerm) :
    (validateNodeSelectorTerm term).length
      = (if term.MatchFields.isSome then 1 else 0)
        + ((Spec.matchExpressions term).filter unsupportedOperator).length := by
  rw [validateNodeSelectorTerm_eq]
  cases term.MatchFields <;> simp
  omega

theorem validateAffinity_length (pod : Pod) :
    (Filter.validateAffinity pod).length
      = (match pod.Spec.Affinity with
         | none => 0
         | some affinity =>
           (if affinity.PodAffinity.isSome then 1 else 0)
             + (if affinity.PodAntiAffinity.isSome then 1 else 0))
        + ((Spec.nodeAffinityTerms pod).map (fun term =>
            (if term.MatchFields.isSome then 1 else 0)
              + ((Spec.matchExpressions term).filter unsupportedOperator).length)).sum := by
  rw [validateAffinity_eq, List.length_append, List.length_flatten, List.map_map]
  congr 1
  · cases pod.Spec.Affinity with
    | none => rfl
    | some affinity =>
      cases h₁ : affinity.PodAffinity <;> cases h₂ : affinity.PodAntiAffinity <;> simp [h₁, h₂]
  · congr 1
    apply List.map_congr_left
    intro term _
    exact validateNodeSelectorTerm_length term

theorem isProvisionable_length (k : Deps) (pod : Pod) (provisioner : v1alpha5.Provisioner) :
    (Filter.isProvisionable k pod provisioner).length = Spec.violations k pod provisioner := by
  rw [isProvisionable_eq]
  simp only [List.length_append, isUnschedulable_length, validateAffinity_length,
    validateTopology_eq, matchesProvisioner_length, List.length_map, Spec.violations]
  omega

theorem isUnschedulable_eq (k : Deps) (pod : Pod) :
    Filter.isUnschedulable k pod = Spec.schedulingReasons k pod := by
  rcases Bool.eq_false_or_eq_true (k.FailedToSchedule pod) with h₁ | h₁ <;>
    rcases Bool.eq_false_or_eq_true (k.IsOwnedByDaemonSet pod) with h₂ | h₂ <;>
    rcases Bool.eq_false_or_eq_true (k.IsOwnedByNode pod) with h₃ | h₃ <;>
    simp [Filter.isUnschedulable, Spec.schedulingReasons, h₁, h₂, h₃]

theorem validateNodeSelectorTerm_eq_termReasons :
    validateNodeSelectorTerm = Spec.termReasons := by
  funext term
  rw [validateNodeSelectorTerm_eq]
  rfl

theorem isProvisionable_eq_reasons (k : Deps) (pod : Pod)
    (provisioner : v1alpha5.Provisioner) :
    Filter.isProvisionable k pod provisioner = Spec.reasons k pod provisioner := by
  rw [isProvisionable_eq, isUnschedulable_eq, validateAffinity_eq, validateTopology_eq,
    matchesProvisioner_eq, validateNodeSelectorTerm_eq_termReasons]
  unfold Spec.reasons Spec.hasPodAffinity Spec.hasPodAntiAffinity Spec.selectedName
  cases pod.Spec.Affinity <;> simp [List.append_assoc]

theorem occurrences_append (text : String) (a b : Error) :
    Spec.occurrences text (a ++ b) = Spec.occurrences text a + Spec.occurrences text b :=
  List.countP_append _ a b

theorem occurrences_errorf (text message : String) :
    Spec.occurrences text [Err.errorf message] = if message = text then 1 else 0 := by
  by_cases h : message = text <;> simp [Spec.occurrences, Err.Error, List.countP_cons, h]

theorem occurrences_map_errorf {α : Type} (text : String) (f : α → String) (l : List α) :
    Spec.occurrences text (l.map (fun x => Err.errorf (f x)))
      = (l.filter (fun x => f x == text)).length := by
  unfold Spec.occurrences
  rw [List.countP_map, List.countP_eq_length_filter]
  rfl

theorem occurrences_flatten (text : String) (parts : List Error) :
    Spec.occurrences text parts.flatten = (parts.map (Spec.occurrences text)).sum :=
  List.countP_flatten _ parts

theorem sum_indicator {α : Type} (p : α → Bool) (l : List α) :
    (l.map (fun x => if p x then 1 else 0)).sum = (l.filter p).length := by
  induction l with
  | nil => rfl
  | cons x xs ih =>
    simp only [List.map_cons, List.sum_cons, ih, List.filter_cons]
    cases p x
    · simp
    · simp
      omega

theorem sum_filter_length {α : Type} (p : α → Bool) (parts : List (List α)) :
    (parts.map (fun l => (l.filter p).length)).sum = (parts.flatten.filter p).length := by
  induction parts with
  | nil => rfl
  | cons x xs ih =>
    simp only [List.map_cons, List.sum_cons, ih, List.flatten_cons, List.filter_append,
      List.length_append]

theorem sum_zero {α : Type} (l : List α) : (l.map (fun _ => 0)).sum = 0 := by
  induction l with
  | nil => rfl
  | cons x xs ih => simp [ih]

/-- The occurrences of a text in the reasons, part by part. -/
theorem occurrences_reasons (text : String) (k : Deps) (pod : Pod)
    (provisioner : v1alpha5.Provisioner) :
    Spec.occurrences text (Spec.reasons k pod provisioner)
      = Spec.occurrences text (Spec.schedulingReasons k pod)
        + (if Spec.hasPodAffinity pod = true ∧ "pod affinity is not supported" = text
            then 1 else 0)
        + (if Spec.hasPodAntiAffinity pod = true ∧ "pod anti-affinity is not supported" = text
            then 1 else 0)
        + ((Spec.nodeAffinityTerms pod).map (fun term =>
            (if Spec.setsMatchFields term = true ∧ "matchFields is not supported" = text
              then 1 else 0)
            + ((Spec.matchExpressions term).filter (fun r =>
                unsupportedOperator r && ("unsupported operator, " ++ r.Operator == text))).length)).sum
        + (pod.Spec.TopologySpreadConstraints.filter (fun c =>
            unsupportedKey c && ("unsupported topology key, " ++ c.TopologyKey ++ " not in "
              ++ supportedTopologyKeysText == text))).length
        + (if ¬ Spec.Targets k pod provisioner ∧
              "matched another provisioner, " ++ Spec.selectedName k pod = text
            then 1 else 0) := by
  unfold Spec.reasons
  simp only [occurrences_append, occurrences_flatten, List.map_map]
  congr 1
  · congr 1
    · congr 1
      · congr 1
        · congr 1
          cases Spec.hasPodAffinity pod
          · simp [Spec.occurrences]
          · simp [occurrences_errorf]
        · cases Spec.hasPodAntiAffinity pod
          · simp [Spec.occurrences]
          · simp [occurrences_errorf]
      · congr 1
        apply List.map_congr_left
        intro term _
        simp only [Function.comp_apply, Spec.termReasons, occurrences_append]
        congr 1
        · cases Spec.setsMatchFields term
          · simp [Spec.occurrences]
          · simp [occurrences_errorf]
        · unfold operatorErr
          rw [occurrences_map_errorf, List.filter_filter]
          congr 1
          apply List.filter_congr
          intro r _
          exact Bool.and_comm _ _
    · unfold topologyErr
      rw [occurrences_map_errorf, List.filter_filter]
      congr 1
      apply List.filter_congr
      intro c _
      exact Bool.and_comm _ _
  · by_cases h : Spec.Targets k pod provisioner
    · simp [h, Spec.occurrences]
    · simp [h, occurrences_errorf]

theorem occurrences_scheduling (text : String) (k : Deps) (pod : Pod) :
    Spec.occurrences text (Spec.schedulingReasons k pod)
      = if k.FailedToSchedule pod = false then
          (if "awaiting scheduling" = text then 1 else 0)
        else if k.IsOwnedByDaemonSet pod = true then
          (if "owned by daemonset" = text then 1 else 0)
        else if k.IsOwnedByNode pod = true then
          (if "owned by node" = text then 1 else 0)
        else 0 := by
  unfold Spec.schedulingReasons
  split
  · exact occurrences_errorf _ _
  · split
    · exact occurrences_errorf _ _
    · split
      · exact occurrences_errorf _ _
      · rfl

theorem occurrences_awaiting (k : Deps) (pod : Pod) (provisioner : v1alpha5.Provisioner) :
    Spec.occurrences "awaiting scheduling" (Spec.reasons k pod provisioner)
      = if k.FailedToSchedule pod = false then 1 else 0 := by
  rw [occurrences_reasons, occurrences_scheduling]
  simp [beq_eq_decide, String.ext_iff, String.data_append, supportedTopologyKeysText]

theorem occurrences_daemonset (k : Deps) (pod : Pod) (provisioner : v1alpha5.Provisioner) :
    Spec.occurrences "owned by daemonset" (Spec.reasons k pod provisioner)
      = if k.FailedToSchedule pod = true ∧ k.IsOwnedByDaemonSet pod = true then 1 else 0 := by
  rw [occurrences_reasons, occurrences_scheduling]
  rcases Bool.eq_false_or_eq_true (k.FailedToSchedule pod) with h₁ | h₁ <;>
    rcases Bool.eq_false_or_eq_true (k.IsOwnedByDaemonSet pod) with h₂ | h₂ <;>
    simp [h₁, h₂, beq_eq_decide, String.ext_iff, String.data_append,
      supportedTopologyKeysText]

theorem occurrences_node (k : Deps) (pod : Pod) (provisioner : v1alpha5.Provisioner) :
    Spec.occurrences "owned by node" (Spec.reasons k pod provisioner)
      = if k.FailedToSchedule pod = true ∧ k.IsOwnedByDaemonSet pod = false ∧
            k.IsOwnedByNode pod = true then 1 else 0 := by
  rw [occurrences_reasons, occurrences_scheduling]
  rcases Bool.eq_false_or_eq_true (k.FailedToSchedule pod) with h₁ | h₁ <;>
    rcases Bool.eq_false_or_eq_true (k.IsOwnedByDaemonSet pod) with h₂ | h₂ <;>
    rcases Bool.eq_false_or_eq_true (k.IsOwnedByNode pod) with h₃ | h₃ <;>
    simp [h₁, h₂, h₃, beq_eq_decide, String.ext_iff, String.data_append,
      supportedTopologyKeysText]

theorem occurrences_podAffinity (k : Deps) (pod : Pod) (provisioner : v1alpha5.Provisioner) :
    Spec.occurrences "pod affinity is not supported" (Spec.reasons k pod provisioner)
      = if Spec.hasPodAffinity pod = true then 1 else 0 := by
  rw [occurrences_reasons, occurrences_scheduling]
  simp [beq_eq_decide, String.ext_iff, String.data_append, supportedTopologyKeysText]

theorem occurrences_podAntiAffinity (k : Deps) (pod : Pod)
    (provisioner : v1alpha5.Provisioner) :
    Spec.occurrences "pod anti-affinity is not supported" (Spec.reasons k pod provisioner)
      = if Spec.hasPodAntiAffinity pod = true then 1 else 0 := by
  rw [occurrences_reasons, occurrences_scheduling]
  simp [beq_eq_decide, String.ext_iff, String.data_append, supportedTopologyKeysText]

theorem occurrences_matchFields (k : Deps) (pod : Pod) (provisioner : v1alpha5.Provisioner) :
    Spec.occurrences "matchFields is not supported" (Spec.reasons k pod provisioner)
      = ((Spec.nodeAffinityTerms pod).filter Spec.setsMatchFields).length := by
  rw [occurrences_reasons, occurrences_scheduling]
  simp only [beq_eq_decide, String.ext_iff, String.data_append, supportedTopologyKeysText]
  simp
  exact sum_indicator Spec.setsMatchFields _

theorem occurrences_operator (operator : String) (k : Deps) (pod : Pod)
    (provisioner : v1alpha5.Provisioner) :
    Spec.occurrences ("unsupported operator, " ++ operator) (Spec.reasons k pod provisioner)
      = ((Spec.allMatchExpressions pod).filter (fun r =>
          unsupportedOperator r && (r.Operator == operator))).length := by
  rw [occurrences_reasons, occurrences_scheduling]
  unfold Spec.allMatchExpressions
  rw [← sum_filter_length, List.map_map]
  simp [beq_eq_decide, String.ext_iff, String.data_append, supportedTopologyKeysText,
    Function.comp_def]

theorem occurrences_topology (key : String) (k : Deps) (pod : Pod)
    (provisioner : v1alpha5.Provisioner) :
    Spec.occurrences
        ("unsupported topology key, " ++ key ++ " not in " ++ supportedTopologyKeysText)
        (Spec.reasons k pod provisioner)
      = (pod.Spec.TopologySpreadConstraints.filter (fun c =>
          unsupportedKey c && (c.TopologyKey == key))).length := by
  rw [occurrences_reasons, occurrences_scheduling]
  simp [beq_eq_decide, String.ext_iff, String.data_append, supportedTopologyKeysText]

theorem occurrences_provisioner (name : String) (k : Deps) (pod : Pod)
    (provisioner : v1alpha5.Provisioner) :
    Spec.occurrences ("matched another provisioner, " ++ name)
        (Spec.reasons k pod provisioner)
      = if ¬ Spec.Targets k pod provisioner ∧ Spec.selectedName k pod = name
          then 1 else 0 := by
  rw [occurrences_reasons, occurrences_scheduling]
  simp [beq_eq_decide, String.ext_iff, String.data_append, supportedTopologyKeysText]

theorem admitted_iff_supported (pod : Pod) :
    Spec.Admitted pod ↔
      Spec.Supported pod ∧ ∀ term ∈ Spec.nodeAffinityTerms pod, term.MatchFields = none := by
  unfold Spec.Admitted Spec.Supported Spec.TermAdmitted Spec.TermSupported Spec.matchFields
  constructor
  · rintro ⟨h₁, h₂, h₃⟩
    exact ⟨⟨h₁, fun term ht => ⟨by rw [(h₂ term ht).1]; rfl, (h₂ term ht).2⟩, h₃⟩,
      fun term ht => (h₂ term ht).1⟩
  · rintro ⟨⟨h₁, h₂, h₃⟩, h₄⟩
    exact ⟨h₁, fun term ht => ⟨h₄ term ht, (h₂ term ht).2⟩, h₃⟩

/-! ## The filter and the routing of pods -/

/-- C1 (as amended): `Filter.isProvisionable` returns no error exactly when the pod
carries the failed-to-schedule signal (rule 1), is owned neither by a daemonset nor by a
node (rule 2), targets the provisioner, by name or by naming none when the provisioner is
the default one (rule 3), and has no pod affinity, no pod anti-affinity, only
node-affinity terms whose `MatchFields` slice is nil and whose operators are In and
NotIn, and only the hostname and zone topology keys (rule 4 as the filter applies it).
Rule 4 so applied is rule 4 as the specification words it together with every
`MatchFields` slice being nil, so a pod without error satisfies the four rules as worded.
When the listing of the unbound pods answers `pods`, `Filter.GetProvisionablePods`
returns exactly the pods of `pods` that satisfy rules 1 to 3 and rule 4 so applied, in
list order, and no error. -/
theorem isProvisionable_iff_rules (k : Deps) (w : World) (pod : Pod)
    (provisioner : v1alpha5.Provisioner) (pods : List Pod) :
    (Filter.isProvisionable k pod provisioner = [] ↔
      Spec.Unplaceable k pod ∧ Spec.NotOwned k pod ∧ Spec.Targets k pod provisioner ∧
        Spec.Admitted pod) ∧
    (Spec.Admitted pod ↔
      Spec.Supported pod ∧ ∀ term ∈ Spec.nodeAffinityTerms pod, term.MatchFields = none) ∧
    (Filter.isProvisionable k pod provisioner = [] → Spec.Provisionable k pod provisioner) ∧
    (Filter.GetProvisionablePods k { w with ListPods := .ok pods } provisioner).1
      = (pods.filter (fun p =>
          decide (Spec.Unplaceable k p ∧ Spec.NotOwned k p ∧ Spec.Targets k p provisioner ∧
            Spec.Admitted p)), []) := by
  refine ⟨isProvisionable_eq_nil_iff k pod provisioner, admitted_iff_supported pod, ?_, ?_⟩
  · intro h
    obtain ⟨h₁, h₂, h₃, h₄⟩ := (isProvisionable_eq_nil_iff k pod provisioner).mp h
    exact ⟨h₁, h₂, h₃, ((admitted_iff_supported pod).mp h₄).1⟩
  · rw [GetProvisionablePods_ok k _ provisioner pods rfl]
    simp only [Spec.Admissible]

/-- C1 (counterexample): a pod that carries the failed-to-schedule signal, has no owner,
names no provisioner and whose only node-affinity term carries no field-match term and no
match expression satisfies the four rules as the specification words them for the
default provisioner; its `MatchFields` slice is non-nil and empty, and the filter returns
the error `matchFields is not supported` and does not list the pod. -/
theorem isProvisionable_rejects_empty_matchFields :
    Spec.Provisionable karpenter Example.emptyFieldsPod (Example.provisioner "default") ∧
    (Filter.isProvisionable karpenter Example.emptyFieldsPod
        (Example.provisioner "default")).map Err.Error
      = ["matchFields is not supported"] ∧
    (Filter.GetProvisionablePods karpenter Example.emptyFieldsWorld
        (Example.provisioner "default")).1.1 = [Example.plainPod] := by
  decide

/-- C2: every pod has one target provisioner name, the value of its provisioner
node-selector entry or else the default name. `podToProvisioner` emits either nothing or
exactly one request, named after the target; it does emit it when the pod is
unschedulable and the target provisioner is found and accepts the pod, and when the
target provisioner is not found. `isProvisionable` accepts the pod only for a provisioner
named after the target. Hence two pods whose node selectors name different provisioners
are mapped to requests with different names, and `GetProvisionablePods` returns both of
them for no provisioner. When the fetch of the target provisioner fails with an error
that is not a not-found error, no request is emitted. -/
theorem routing_agrees_with_filter (k : Deps) (w : World) (pod pod' : Pod)
    (provisioner : v1alpha5.Provisioner) :
    ((Controller.podToProvisioner k w pod).1 = [] ∨
      (Controller.podToProvisioner k w pod).1
        = [{ Namespace := "", Name := Spec.targetName k pod }]) ∧
    (∀ found, Filter.isUnschedulable k pod = [] → w.Get (Spec.targetKey k pod) = .ok found →
      Filter.isProvisionable k pod found = [] →
      (Controller.podToProvisioner k w pod).1
        = [{ Namespace := "", Name := Spec.targetName k pod }]) ∧
    (∀ err, Filter.isUnschedulable k pod = [] → w.Get (Spec.targetKey k pod) = .error err →
      errors.IsNotFound err = true →
      (Controller.podToProvisioner k w pod).1
        = [{ Namespace := "", Name := Spec.targetName k pod }]) ∧
    (Filter.isProvisionable k pod provisioner = [] →
      provisioner.Name = Spec.targetName k pod) ∧
    (∀ name name', pod.Spec.NodeSelector.lookup k.ProvisionerNameLabelKey = some name →
      pod'.Spec.NodeSelector.lookup k.ProvisionerNameLabelKey = some name' → name ≠ name' →
      (∀ request ∈ (Controller.podToProvisioner k w pod).1,
        ∀ request' ∈ (Controller.podToProvisioner k w pod').1,
          request.Name ≠ request'.Name) ∧
      ¬ (pod ∈ (Filter.GetProvisionablePods k w provisioner).1.1 ∧
         pod' ∈ (Filter.GetProvisionablePods k w provisioner).1.1)) ∧
    (∀ err, w.Get (Spec.targetKey k pod) = .error err → errors.IsNotFound err = false →
      (Controller.podToProvisioner k w pod).1 = []) := by
  refine ⟨?_, ?_, ?_, isProvisionable_name k pod provisioner, ?_, ?_⟩
  · rw [podToProvisioner_requests]
    split <;> simp
  · intro found hu hg hp
    rw [podToProvisioner_requests, hg]
    simp [hu, hp]
  · intro err hu hg hnf
    rw [podToProvisioner_requests, hg]
    simp [hu, hnf]
  · intro name name' hn hn' hne
    have ht : Spec.targetName k pod = name := by simp [Spec.targetName, hn]
    have ht' : Spec.targetName k pod' = name' := by simp [Spec.targetName, hn']
    constructor
    · intro request hr request' hr'
      rw [podToProvisioner_requests] at hr hr'
      split at hr
      · split at hr'
        · simp only [List.mem_singleton] at hr hr'
          subst hr hr'
          simpa [ht, ht'] using hne
        · simp at hr'
      · simp at hr
    · rintro ⟨hm, hm'⟩
      have key : ∀ p, p ∈ (Filter.GetProvisionablePods k w provisioner).1.1 →
          Filter.isProvisionable k p provisioner = [] := by
        intro p hp
        cases hl : w.ListPods with
        | error err => simp [Filter.GetProvisionablePods, hl] at hp
        | ok pods =>
          rw [GetProvisionablePods_ok k w provisioner pods hl] at hp
          simp only [List.mem_filter, decide_eq_true_eq] at hp
          exact (isProvisionable_eq_nil_iff k p provisioner).mpr hp.2
      have h₁ := isProvisionable_name k pod provisioner (key pod hm)
      have h₂ := isProvisionable_name k pod' provisioner (key pod' hm')
      exact hne (by rw [← ht, ← ht', ← h₁, ← h₂])
  · intro err hg hnf
    rw [podToProvisioner_requests, hg]
    simp [hnf]

/-- C2 (witness): in the example world the provisioner `a` exists and `b` does not;
`pod-a` is routed to the request `a`, `pod-b` to the request `b`, and the filter returns
the two pods together for no provisioner, here checked for `a`. In the world whose fetch
fails with an error that wraps a status of unknown reason before a not-found status, the
error is not a not-found error and the plain pod is mapped to no request. -/
theorem routing_agrees_with_filter_witness :
    (Controller.podToProvisioner karpenter Example.world Example.podA).1
      = [{ Namespace := "", Name := "a" }] ∧
    (Controller.podToProvisioner karpenter Example.world Example.podB).1
      = [{ Namespace := "", Name := "b" }] ∧
    ¬ (Example.podA ∈
        (Filter.GetProvisionablePods karpenter Example.world (Example.provisioner "a")).1.1 ∧
       Example.podB ∈
        (Filter.GetProvisionablePods karpenter Example.world (Example.provisioner "a")).1.1) ∧
    errors.IsNotFound Example.shadowedNotFound = false ∧
    (Controller.podToProvisioner karpenter Example.shadowedNotFoundWorld Example.plainPod).1
      = [] :=
  ⟨(routing_agrees_with_filter karpenter Example.world Example.podA Example.podB
      (Example.provisioner "a")).2.1 (Example.provisioner "a") rfl rfl rfl,
   (routing_agrees_with_filter karpenter Example.world Example.podB Example.podA
      (Example.provisioner "a")).2.2.1
      (.status .NotFound "provisioners \"b\" not found") rfl rfl rfl,
   ((routing_agrees_with_filter karpenter Example.world Example.podA Example.podB
      (Example.provisioner "a")).2.2.2.2.1 "a" "b" rfl rfl (by decide)).2,
   rfl,
   (routing_agrees_with_filter karpenter Example.shadowedNotFoundWorld Example.plainPod
      Example.plainPod (Example.provisioner "a")).2.2.2.2.2 Example.shadowedNotFound rfl rfl⟩

/-- C3 (as amended): for every pod and provisioner the aggregate of
`Filter.isProvisionable` consists of exactly one reason for each violation, in the order
of the checks: the reason of the first violated check of `isUnschedulable` (awaiting
scheduling, else owned by daemonset, else owned by node, the later ones not being
reported), pod affinity, pod anti-affinity, for each node-affinity term one reason when
its `MatchFields` slice is non-nil and one for each match expression with an operator
outside In and NotIn, one for each topology-spread constraint with an unsupported key,
and one for targeting another provisioner. Hence every reason text occurs as often as
its violation does, and the number of reasons is the number of violations, the checks of
`isUnschedulable` counted as one. -/
theorem isProvisionable_collects (k : Deps) (pod : Pod) (provisioner : v1alpha5.Provisioner) :
    Filter.isProvisionable k pod provisioner = Spec.reasons k pod provisioner ∧
    Spec.occurrences "awaiting scheduling" (Filter.isProvisionable k pod provisioner)
      = (if k.FailedToSchedule pod = false then 1 else 0) ∧
    Spec.occurrences "owned by daemonset" (Filter.isProvisionable k pod provisioner)
      = (if k.FailedToSchedule pod = true ∧ k.IsOwnedByDaemonSet pod = true
          then 1 else 0) ∧
    Spec.occurrences "owned by node" (Filter.isProvisionable k pod provisioner)
      = (if k.FailedToSchedule pod = true ∧ k.IsOwnedByDaemonSet pod = false ∧
            k.IsOwnedByNode pod = true then 1 else 0) ∧
    Spec.occurrences "pod affinity is not supported"
        (Filter.isProvisionable k pod provisioner)
      = (if Spec.hasPodAffinity pod = true then 1 else 0) ∧
    Spec.occurrences "pod anti-affinity is not supported"
        (Filter.isProvisionable k pod provisioner)
      = (if Spec.hasPodAntiAffinity pod = true then 1 else 0) ∧
    Spec.occurrences "matchFields is not supported"
        (Filter.isProvisionable k pod provisioner)
      = ((Spec.nodeAffinityTerms pod).filter Spec.setsMatchFields).length ∧
    (∀ operator : String,
      Spec.occurrences ("unsupported operator, " ++ operator)
          (Filter.isProvisionable k pod provisioner)
        = ((Spec.allMatchExpressions pod).filter (fun r =>
            unsupportedOperator r && (r.Operator == operator))).length) ∧
    (∀ key : String,
      Spec.occurrences
          ("unsupported topology key, " ++ key ++ " not in " ++ supportedTopologyKeysText)
          (Filter.isProvisionable k pod provisioner)
        = (pod.Spec.TopologySpreadConstraints.filter (fun c =>
            unsupportedKey c && (c.TopologyKey == key))).length) ∧
    (∀ name : String,
      Spec.occurrences ("matched another provisioner, " ++ name)
          (Filter.isProvisionable k pod provisioner)
        = (if ¬ Spec.Targets k pod provisioner ∧ Spec.selectedName k pod = name
            then 1 else 0)) ∧
    (Filter.isProvisionable k pod provisioner).length = Spec.violations k pod provisioner := by
  refine ⟨isProvisionable_eq_reasons k pod provisioner, ?_, ?_, ?_, ?_, ?_, ?_, ?_, ?_, ?_,
    isProvisionable_length k pod provisioner⟩
  · rw [isProvisionable_eq_reasons]; exact occurrences_awaiting k pod provisioner
  · rw [isProvisionable_eq_reasons]; exact occurrences_daemonset k pod provisioner
  · rw [isProvisionable_eq_reasons]; exact occurrences_node k pod provisioner
  · rw [isProvisionable_eq_reasons]; exact occurrences_podAffinity k pod provisioner
  · rw [isProvisionable_eq_reasons]; exact occurrences_podAntiAffinity k pod provisioner
  · rw [isProvisionable_eq_reasons]; exact occurrences_matchFields k pod provisioner
  · intro operator
    rw [isProvisionable_eq_reasons]; exact occurrences_operator operator k pod provisioner
  · intro key
    rw [isProvisionable_eq_reasons]; exact occurrences_topology key k pod provisioner
  · intro name
    rw [isProvisionable_eq_reasons]; exact occurrences_provisioner name k pod provisioner

/-- C3 (witness): a pod owned by a node, with two node-affinity terms that set
matchFields, yields exactly eight reasons in the order of the checks: `matchFields is not
supported` twice, every other reason once, and no reason for a daemonset. -/
theorem isProvisionable_collects_witness :
    (Filter.isProvisionable karpenter Example.unsupportedPod
        (Example.provisioner "default")).map Err.Error
      = ["owned by node",
         "pod affinity is not supported",
         "pod anti-affinity is not supported",
         "matchFields is not supported",
         "unsupported operator, Exists",
         "matchFields is not supported",
         "unsupported topology key, rack not in "
           ++ "map[kubernetes.io/hostname:\x7b\x7d topology.kubernetes.io/zone:\x7b\x7d]",
         "matched another provisioner, x"] ∧
    Spec.occurrences "matchFields is not supported"
        (Filter.isProvisionable karpenter Example.unsupportedPod
          (Example.provisioner "default")) = 2 ∧
    Spec.occurrences "owned by daemonset"
        (Filter.isProvisionable karpenter Example.unsupportedPod
          (Example.provisioner "default")) = 0 ∧
    Spec.occurrences "unsupported operator, Exists"
        (Filter.isProvisionable karpenter Example.unsupportedPod
          (Example.provisioner "default")) = 1 ∧
    (Filter.isProvisionable karpenter Example.unsupportedPod
        (Example.provisioner "default")).length = 8 :=
  ⟨(congrArg (List.map Err.Error)
      (isProvisionable_collects karpenter Example.unsupportedPod
        (Example.provisioner "default")).1).trans (by decide),
   (isProvisionable_collects karpenter Example.unsupportedPod
      (Example.provisioner "default")).2.2.2.2.2.2.1.trans (by decide),
   (isProvisionable_collects karpenter Example.unsupportedPod
      (Example.provisioner "default")).2.2.1.trans (by decide),
   ((isProvisionable_collects karpenter Example.unsupportedPod
      (Example.provisioner "default")).2.2.2.2.2.2.2.1 "Exists").trans (by decide),
   (isProvisionable_collects karpenter Example.unsupportedPod
      (Example.provisioner "default")).2.2.2.2.2.2.2.2.2.2.trans (by decide)⟩

/-- C3 (counterexample): a pod that is not yet marked failed-to-schedule and is owned
by a daemonset violates two rules, yet the aggregate holds the single reason
`awaiting scheduling` and no reason for the daemonset ownership. -/
theorem isProvisionable_drops_daemonset_reason :
    karpenter.FailedToSchedule Example.daemonPod = false ∧
    karpenter.IsOwnedByDaemonSet Example.daemonPod = true ∧
    (Filter.isProvisionable karpenter Example.daemonPod (Example.provisioner "default")).map
      Err.Error = ["awaiting scheduling"] ∧
    "owned by daemonset" ∉
      (Filter.isProvisionable karpenter Example.daemonPod (Example.provisioner "default")).map
        Err.Error := by
  decide

/-! ## Lemmas on constraint defaulting -/

theorem unspecified_iff (c : v1alpha1.Constraints) (key : String) :
    Spec.Unspecified c key ↔
      (c.Labels.lookup key).isSome = false ∧
        functional.ContainsString (v1alpha5.Requirements.Keys c.Requirements) key = false := by
  unfold Spec.Unspecified functional.ContainsString v1alpha5.Requirements.Keys
  refine and_congr ?_ ?_
  · cases c.Labels.lookup key <;> simp
  · simp

theorem defaultArchitecture_eq (k : Deps) (c : v1alpha1.Constraints) :
    v1alpha1.Constraints.defaultArchitecture k c
      = if Spec.Unspecified c v1.LabelArchStable then
          { c with
            Requirements := c.Requirements ++
              [{ Key := v1.LabelArchStable, Operator := v1.NodeSelectorOpIn,
                 Values := [k.ArchitectureAmd64] }] }
        else c := by
  unfold v1alpha1.Constraints.defaultArchitecture
  by_cases hU : Spec.Unspecified c v1.LabelArchStable
  · rw [if_pos hU]
    obtain ⟨h₁, h₂⟩ := (unspecified_iff c _).mp hU
    simp [h₁, h₂]
  · rw [if_neg hU]
    rw [unspecified_iff] at hU
    cases h₁ : (c.Labels.lookup v1.LabelArchStable).isSome
    · cases h₂ : functional.ContainsString (v1alpha5.Requirements.Keys c.Requirements)
          v1.LabelArchStable
      · exact absurd ⟨h₁, h₂⟩ hU
      · simp
    · simp

theorem defaultCapacityTypes_eq (k : Deps) (c : v1alpha1.Constraints) :
    v1alpha1.Constraints.defaultCapacityTypes k c
      = if Spec.Unspecified c k.LabelCapacityType then
          { c with
            Requirements := c.Requirements ++
              [{ Key := k.LabelCapacityType, Operator := v1.NodeSelectorOpIn,
                 Values := [k.CapacityTypeOnDemand] }] }
        else c := by
  unfold v1alpha1.Constraints.defaultCapacityTypes
  by_cases hU : Spec.Unspecified c k.LabelCapacityType
  · rw [if_pos hU]
    obtain ⟨h₁, h₂⟩ := (unspecified_iff c _).mp hU
    simp [h₁, h₂]
  · rw [if_neg hU]
    rw [unspecified_iff] at hU
    cases h₁ : (c.Labels.lookup k.LabelCapacityType).isSome
    · cases h₂ : functional.ContainsString (v1alpha5.Requirements.Keys c.Requirements)
          k.LabelCapacityType
      · exact absurd ⟨h₁, h₂⟩ hU
      · simp
    · simp

theorem defaultSubnets_eq (clusterName : String) (c : v1alpha1.Constraints) :
    v1alpha1.Constraints.defaultSubnets clusterName c
      = { c with SubnetSelector := some (c.SubnetSelector.getD [(v1alpha1.ClusterDiscoveryTagKeyFormat clusterName, "*")]) } := by
  obtain ⟨base, sub, sg⟩ := c
  cases sub <;> simp [v1alpha1.Constraints.defaultSubnets]

theorem defaultSecurityGroups_eq (clusterName : String) (c : v1alpha1.Constraints) :
    v1alpha1.Constraints.defaultSecurityGroups clusterName c
      = { c with SecurityGroupSelector := some (c.SecurityGroupSelector.getD [(v1alpha1.ClusterDiscoveryTagKeyFormat clusterName, "*")]) } := by
  obtain ⟨base, sub, sg⟩ := c
  cases sg <;> simp [v1alpha1.Constraints.defaultSecurityGroups]

/-- After the architecture step the capacity-type key is unspecified exactly when it
was unspecified before, provided the two keys differ. -/
theorem unspecified_after_architecture (k : Deps) (c : v1alpha1.Constraints)
    (hk : k.LabelCapacityType ≠ v1.LabelArchStable) :
    Spec.Unspecified (v1alpha1.Constraints.defaultArchitecture k c) k.LabelCapacityType
      ↔ Spec.Unspecified c k.LabelCapacityType := by
  rw [defaultArchitecture_eq]
  split
  · unfold Spec.Unspecified
    simp only [List.mem_append, List.mem_singleton]
    constructor
    · rintro ⟨h₁, h₂⟩
      exact ⟨h₁, fun r hr => h₂ r (Or.inl hr)⟩
    · rintro ⟨h₁, h₂⟩
      refine ⟨h₁, fun r hr => ?_⟩
      rcases hr with hr | hr
      · exact h₂ r hr
      · subst hr
        exact fun e => hk e.symm
  · rfl

theorem Default_fields (k : Deps) (ctx : options.Options) (c : v1alpha1.Constraints) :
    (v1alpha1.Constraints.Default k ctx c).Labels = c.Labels ∧
    (v1alpha1.Constraints.Default k ctx c).Taints = c.Taints ∧
    (v1alpha1.Constraints.Default k ctx c).Requirements
      = (v1alpha1.Constraints.defaultCapacityTypes k
          (v1alpha1.Constraints.defaultArchitecture k c)).Requirements ∧
    (v1alpha1.Constraints.Default k ctx c).SubnetSelector
      = some (c.SubnetSelector.getD
          [(v1alpha1.ClusterDiscoveryTagKeyFormat ctx.ClusterName, "*")]) ∧
    (v1alpha1.Constraints.Default k ctx c).SecurityGroupSelector
      = some (c.SecurityGroupSelector.getD
          [(v1alpha1.ClusterDiscoveryTagKeyFormat ctx.ClusterName, "*")]) := by
  unfold v1alpha1.Constraints.Default
  simp only [defaultSubnets_eq, defaultSecurityGroups_eq]
  simp only [defaultCapacityTypes_eq, defaultArchitecture_eq]
  split <;> split <;> simp

theorem specified_mono (c c' : v1alpha1.Constraints) (key : String)
    (hl : c'.Labels = c.Labels) (hr : ∀ r ∈ c.Requirements, r ∈ c'.Requirements)
    (h : ¬ Spec.Unspecified c key) : ¬ Spec.Unspecified c' key := by
  unfold Spec.Unspecified at *
  rw [hl]
  rintro ⟨h₁, h₂⟩
  exact h ⟨h₁, fun r hm => h₂ r (hr r hm)⟩

theorem specified_after_architecture (k : Deps) (c : v1alpha1.Constraints) :
    ¬ Spec.Unspecified (v1alpha1.Constraints.defaultArchitecture k c) v1.LabelArchStable := by
  rw [defaultArchitecture_eq]
  split
  · rintro ⟨_, h₂⟩
    exact h₂ _ (List.mem_append_right _ (List.mem_singleton.mpr rfl)) rfl
  · assumption

theorem specified_after_capacityTypes (k : Deps) (c : v1alpha1.Constraints) :
    ¬ Spec.Unspecified (v1alpha1.Constraints.defaultCapacityTypes k c) k.LabelCapacityType := by
  rw [defaultCapacityTypes_eq]
  split
  · rintro ⟨_, h₂⟩
    exact h₂ _ (List.mem_append_right _ (List.mem_singleton.mpr rfl)) rfl
  · assumption

theorem capacityTypes_grows (k : Deps) (c : v1alpha1.Constraints) :
    (v1alpha1.Constraints.defaultCapacityTypes k c).Labels = c.Labels ∧
    ∀ r ∈ c.Requirements, r ∈ (v1alpha1.Constraints.defaultCapacityTypes k c).Requirements := by
  rw [defaultCapacityTypes_eq]
  split
  · exact ⟨rfl, fun r hr => List.mem_append_left _ hr⟩
  · exact ⟨rfl, fun r hr => hr⟩

theorem constraints_ext (c c' : v1alpha1.Constraints) (h₁ : c.Labels = c'.Labels)
    (h₂ : c.Taints = c'.Taints) (h₃ : c.Requirements = c'.Requirements)
    (h₄ : c.SubnetSelector = c'.SubnetSelector)
    (h₅ : c.SecurityGroupSelector = c'.SecurityGroupSelector) : c = c' := by
  obtain ⟨⟨l, t, r⟩, s, g⟩ := c
  obtain ⟨⟨l', t', r'⟩, s', g'⟩ := c'
  simp only at h₁ h₂ h₃ h₄ h₅
  subst h₁ h₂ h₃ h₄ h₅
  rfl

/-! ## Constraint defaulting -/

/-- C4: constraint defaulting is idempotent: for every constraints value and every
context, applying `Constraints.Default` twice yields the same constraints (labels,
taints, requirements, subnet selector, security-group selector) as applying it once. -/
theorem Default_idempotent (k : Deps) (ctx : options.Options) (c : v1alpha1.Constraints) :
    v1alpha1.Constraints.Default k ctx (v1alpha1.Constraints.Default k ctx c)
      = v1alpha1.Constraints.Default k ctx c := by
  obtain ⟨hl, ht, hr, hs, hg⟩ := Default_fields k ctx c
  obtain ⟨hl', ht', hr', hs', hg'⟩ :=
    Default_fields k ctx (v1alpha1.Constraints.Default k ctx c)
  have harch : ¬ Spec.Unspecified (v1alpha1.Constraints.Default k ctx c) v1.LabelArchStable := by
    have grows := capacityTypes_grows k (v1alpha1.Constraints.defaultArchitecture k c)
    refine specified_mono (v1alpha1.Constraints.defaultArchitecture k c) _ _ ?_ ?_
      (specified_after_architecture k c)
    · rw [hl]
      rw [defaultArchitecture_eq]
      split <;> rfl
    · rw [hr]
      exact grows.2
  have hcap : ¬ Spec.Unspecified (v1alpha1.Constraints.Default k ctx c) k.LabelCapacityType := by
    refine specified_mono (v1alpha1.Constraints.defaultCapacityTypes k
      (v1alpha1.Constraints.defaultArchitecture k c)) _ _ ?_ ?_
      (specified_after_capacityTypes k _)
    · rw [hl, (capacityTypes_grows k _).1]
      rw [defaultArchitecture_eq]
      split <;> rfl
    · rw [hr]
      exact fun r h => h
  apply constraints_ext
  · exact hl'
  · exact ht'
  · rw [hr', defaultArchitecture_eq, if_neg harch, defaultCapacityTypes_eq, if_neg hcap]
  · rw [hs', hs]; rfl
  · rw [hg', hg]; rfl

/-- C5: `Constraints.Default` fills exactly the unspecified fields, provided the
capacity-type key is not the architecture key. Labels and taints are unchanged; the
requirements are the original ones, in order, followed by `architecture In [amd64]`
when the architecture key is neither a label nor a requirement key of the input, then by
`capacity-type In [on-demand]` when the capacity-type key is neither a label nor a
requirement key of the input; a nil subnet selector becomes the single-entry map from
the cluster-discovery key of the cluster name to `*` and a non-nil one is unchanged;
the same holds for the security-group selector. -/
theorem Default_fills_unspecified (k : Deps) (ctx : options.Options)
    (c : v1alpha1.Constraints) (hk : k.LabelCapacityType ≠ v1.LabelArchStable) :
    (v1alpha1.Constraints.Default k ctx c).Labels = c.Labels ∧
    (v1alpha1.Constraints.Default k ctx c).Taints = c.Taints ∧
    (v1alpha1.Constraints.Default k ctx c).Requirements
      = c.Requirements
        ++ (if Spec.Unspecified c v1.LabelArchStable then
              [{ Key := v1.LabelArchStable, Operator := v1.NodeSelectorOpIn,
                 Values := [k.ArchitectureAmd64] }]
            else [])
        ++ (if Spec.Unspecified c k.LabelCapacityType then
              [{ Key := k.LabelCapacityType, Operator := v1.NodeSelectorOpIn,
                 Values := [k.CapacityTypeOnDemand] }]
            else []) ∧
    (v1alpha1.Constraints.Default k ctx c).SubnetSelector
      = (match c.SubnetSelector with
         | none => some [(v1alpha1.ClusterDiscoveryTagKeyFormat ctx.ClusterName, "*")]
         | some selector => some selector) ∧
    (v1alpha1.Constraints.Default k ctx c).SecurityGroupSelector
      = (match c.SecurityGroupSelector with
         | none => some [(v1alpha1.ClusterDiscoveryTagKeyFormat ctx.ClusterName, "*")]
         | some selector => some selector) := by
  obtain ⟨hl, ht, hr, hs, hg⟩ := Default_fields k ctx c
  refine ⟨hl, ht, ?_, ?_, ?_⟩
  · rw [hr, defaultCapacityTypes_eq]
    simp only [unspecified_after_architecture k c hk]
    rw [defaultArchitecture_eq]
    by_cases h₁ : Spec.Unspecified c v1.LabelArchStable <;>
      by_cases h₂ : Spec.Unspecified c k.LabelCapacityType <;> simp [h₁, h₂]
  · rw [hs]; cases c.SubnetSelector <;> rfl
  · rw [hg]; cases c.SecurityGroupSelector <;> rfl

/-- C5 (witness): constraints that pin the architecture by a label and set no subnet
selector receive the capacity-type requirement and the default subnet selector of
cluster `prod`, and nothing else changes. -/
theorem Default_fills_unspecified_witness :
    (v1alpha1.Constraints.Default karpenter { ClusterName := "prod" }
        Example.armConstraints).Labels = [("kubernetes.io/arch", "arm64")] ∧
    (v1alpha1.Constraints.Default karpenter { ClusterName := "prod" }
        Example.armConstraints).Requirements
      = [{ Key := "karpenter.sh/capacity-type", Operator := "In", Values := ["on-demand"] }] ∧
    (v1alpha1.Constraints.Default karpenter { ClusterName := "prod" }
        Example.armConstraints).SubnetSelector = some [("kubernetes.io/cluster/prod", "*")] ∧
    (v1alpha1.Constraints.Default karpenter { ClusterName := "prod" }
        Example.armConstraints).SecurityGroupSelector = some [("Name", "nodes")] := by
  have h := Default_fills_unspecified karpenter { ClusterName := "prod" }
    Example.armConstraints (by decide)
  exact ⟨h.1, h.2.2.1.trans (by decide), h.2.2.2.1.trans (by decide),
    h.2.2.2.2.trans (by decide)⟩

/-! ## Lemmas on the launcher -/

theorem flatten_toList {α β : Type} (f : α → Option β) (l : List α) :
    (l.map (fun x => (f x).toList)).flatten = l.filterMap f := by
  induction l with
  | nil => rfl
  | cons x xs ih =>
    simp only [List.map_cons, List.flatten_cons, ih, List.filterMap_cons]
    cases f x <;> rfl

theorem filterMap_length_eq {α β : Type} (f : α → Option β) (l : List α) :
    (l.filterMap f).length = (l.filter (fun x => (f x).isSome)).length := by
  induction l with
  | nil => rfl
  | cons x xs ih =>
    simp only [List.filterMap_cons, List.filter_cons]
    cases f x <;> simp [ih]

theorem parallelize_background {α β : Type} (ctx : Context) (hctx : ∀ i, ctx.Done i = false)
    (items : List α) (f : Nat → α → β) :
    workqueue.ParallelizeUntil ctx items f = items.enum.map (fun p => some (f p.1 p.2)) := by
  unfold workqueue.ParallelizeUntil
  apply List.map_congr_left
  rintro ⟨i, item⟩ _
  simp [hctx i]

theorem bind_eq (k : Deps) (w : World) (ctx : Context) (node : Node) (pods : List Pod) :
    Launcher.bind k w ctx node pods
      = match w.CreateNode (Spec.registered k node) with
        | some err =>
          if !errors.IsAlreadyExists err then
            ([fmt.Errorfw ("creating node " ++ node.Name ++ ", ") [err]],
              [.CreateNode (Spec.registered k node)])
          else Launcher.bindLoop k w ctx node pods
        | none => Launcher.bindLoop k w ctx node pods := by
  cases h : w.CreateNode (Spec.registered k node) with
  | none =>
    have h' := h
    unfold Spec.registered at h'
    simp only [Launcher.bind, Id.run, h']
    rfl
  | some err =>
    have h' := h
    unfold Spec.registered at h'
    simp only [Launcher.bind, Id.run, h']
    cases ha : errors.IsAlreadyExists err
    · rfl
    · rfl

theorem bindLoop_background (k : Deps) (w : World) (ctx : Context) (node : Node)
    (pods : List Pod) (hctx : ∀ i, ctx.Done i = false) :
    Launcher.bindLoop k w ctx node pods
      = (pods.enum.filterMap (Spec.bindAnswer w node.Name),
          Event.CreateNode (Spec.registered k node) :: pods.map (Spec.bindCall node.Name)) := by
  unfold Launcher.bindLoop
  simp only [parallelize_background ctx hctx, multierr.Combine, List.map_map,
    List.filterMap_map, List.singleton_append, Function.comp_def, Option.map_some']
  congr 1
  · exact flatten_toList (Spec.bindAnswer w node.Name) pods.enum
  · congr 1
    rw [show (fun x : ℕ × Pod => some (Spec.bindCall node.Name x.2))
        = some ∘ (fun x => Spec.bindCall node.Name x.2) from rfl, List.filterMap_eq_map]
    conv_rhs => rw [← List.enum_map_snd pods]
    rw [List.map_map]
    rfl

theorem bindLoop_trace (k : Deps) (w : World) (ctx : Context) (node : Node) (pods : List Pod) :
    ∃ rest, (Launcher.bindLoop k w ctx node pods).2
        = Event.CreateNode (Spec.registered k node) :: rest ∧
      ∀ e ∈ rest, ∃ ns binding, e = Event.Bind ns binding := by
  refine ⟨(workqueue.ParallelizeUntil ctx pods (fun i (pod : Pod) =>
      (Spec.bindCall node.Name pod, Spec.bindAnswer w node.Name (i, pod)))).filterMap
        (fun (piece : Option (Event × Option Err)) => piece.map Prod.fst), rfl, ?_⟩
  intro e he
  rw [List.mem_filterMap] at he
  obtain ⟨piece, hpiece, hm⟩ := he
  unfold workqueue.ParallelizeUntil at hpiece
  rw [List.mem_map] at hpiece
  obtain ⟨⟨i, pod⟩, _, hp⟩ := hpiece
  by_cases hd : ctx.Done i = true
  · simp only [hd, if_true] at hp
    subst hp
    exact absurd hm (by simp)
  · simp only [hd, if_false] at hp
    subst hp
    exact ⟨_, _, (Option.some.inj hm).symm⟩

theorem bind_trace (k : Deps) (w : World) (ctx : Context) (node : Node) (pods : List Pod) :
    ∃ rest, (Launcher.bind k w ctx node pods).2
        = Event.CreateNode (Spec.registered k node) :: rest ∧
      ∀ e ∈ rest, ∃ ns binding, e = Event.Bind ns binding := by
  rw [bind_eq]
  cases hc : w.CreateNode (Spec.registered k node) with
  | none => exact bindLoop_trace k w ctx node pods
  | some err =>
    cases ha : errors.IsAlreadyExists err
    · simp only [ha, Bool.not_false, if_true]
      exact ⟨[], rfl, by simp⟩
    · simp only [ha, Bool.not_true, Bool.false_eq_true, if_false]
      exact bindLoop_trace k w ctx node pods

theorem bind_of_created (k : Deps) (w : World) (ctx : Context) (node : Node) (pods : List Pod)
    (hcreate : ∀ err, w.CreateNode (Spec.registered k node) = some err →
      errors.IsAlreadyExists err = true) :
    Launcher.bind k w ctx node pods = Launcher.bindLoop k w ctx node pods := by
  rw [bind_eq]
  cases hc : w.CreateNode (Spec.registered k node) with
  | none => rfl
  | some err => simp [hcreate err hc]

theorem bindLoop_congr (k : Deps) (w w' : World) (ctx : Context) (node : Node)
    (pods : List Pod) (h : w'.Bind = w.Bind) :
    Launcher.bindLoop k w' ctx node pods = Launcher.bindLoop k w ctx node pods := by
  unfold Launcher.bindLoop Spec.bindAnswer
  rw [h]

/-! ## The launcher -/

/-- C6: for every packing, every batch and every node handed to the per-node callback
of `Launcher.Launch`, whatever the API server answers and whether or not the context is
cancelled, the first call the callback makes is the creation of a node whose taints are
the original taints of the node, then the taints of the packing in their order, then one
not-ready taint (key `NotReadyTaintKey`, effect `NoSchedule`) as the last element, and
whose finalizers are the original finalizers followed by the termination finalizer; every
later call is a bind, so the node is submitted in this shape before any pod is bound and
whether or not the creation or a bind fails. -/
theorem callback_submits_guarded_node (k : Deps) (w : World) (ctx : Context)
    (packing : Packing) (pods : List Pod) (node : Node) :
    ∃ submitted rest,
      (Launcher.Launch.callback k w ctx packing pods node).2
        = Event.CreateNode submitted :: rest ∧
      submitted.Spec.Taints
        = node.Spec.Taints ++ packing.Constraints.Taints
          ++ [{ Key := k.NotReadyTaintKey, Value := "", Effect := v1.TaintEffectNoSchedule }] ∧
      submitted.Finalizers = node.Finalizers ++ [k.TerminationFinalizer] ∧
      submitted.Name = node.Name ∧
      ∀ e ∈ rest, ∃ ns binding, e = Event.Bind ns binding := by
  unfold Launcher.Launch.callback
  obtain ⟨rest, hrest, hbinds⟩ := bind_trace k w ctx
    { node with
      Labels := functional.UnionStringMaps node.Labels packing.Constraints.Labels,
      Spec := { node.Spec with Taints := node.Spec.Taints ++ packing.Constraints.Taints } }
    pods
  exact ⟨_, rest, hrest, rfl, rfl, rfl, hbinds⟩

/-- C7 (as amended): in `Launcher.bind`, when the node-create call fails with `already
exists` the outcome, returned error and calls made, is identical to the one in a world
that answers the binds alike and in which the creation succeeds; while the context is not
cancelled no error is reported for the creation (the returned errors are exactly the
failed binds) and the calls after the creation are exactly one bind per pod of the batch,
in batch order, each targeting the name of the node. When the creation fails with any
other error, `bind` returns the single error that wraps the creation error and makes no
bind call. -/
theorem create_tolerates_already_exists (k : Deps) (w w' : World) (ctx : Context)
    (node : Node) (pods : List Pod) (err : Err) :
    (w.CreateNode (Spec.registered k node) = some err → errors.IsAlreadyExists err = true →
      w'.CreateNode (Spec.registered k node) = none → w'.Bind = w.Bind →
      Launcher.bind k w ctx node pods = Launcher.bind k w' ctx node pods) ∧
    (w.CreateNode (Spec.registered k node) = some err → errors.IsAlreadyExists err = true →
      (∀ i, ctx.Done i = false) →
      Launcher.bind k w ctx node pods
        = (pods.enum.filterMap (Spec.bindAnswer w node.Name),
            Event.CreateNode (Spec.registered k node)
              :: pods.map (Spec.bindCall node.Name))) ∧
    (w.CreateNode (Spec.registered k node) = some err → errors.IsAlreadyExists err = false →
      Launcher.bind k w ctx node pods
        = ([fmt.Errorfw ("creating node " ++ node.Name ++ ", ") [err]],
            [Event.CreateNode (Spec.registered k node)])) := by
  refine ⟨?_, ?_, ?_⟩
  · intro hc ha hc' hb
    rw [bind_of_created k w ctx node pods (fun e he => by rw [hc] at he; cases he; exact ha),
      bind_of_created k w' ctx node pods (fun e he => by rw [hc'] at he; cases he),
      bindLoop_congr k w w' ctx node pods hb]
  · intro hc ha hctx
    rw [bind_of_created k w ctx node pods (fun e he => by rw [hc] at he; cases he; exact ha),
      bindLoop_background k w ctx node pods hctx]
  · intro hc ha
    rw [bind_eq, hc]
    simp [ha]

/-- C7 (witness): with the node already existing and an uncancelled context, both pods
of the batch receive one bind call to the node and no error is returned; with the
creation forbidden, the wrapped creation error is returned and no bind call is made; the
same holds when the creation error wraps a status of unknown reason before an
already-exists status, which is not an already-exists error. -/
theorem create_tolerates_already_exists_witness :
    (Launcher.bind karpenter Example.existingNodeWorld Context.background Example.node
        [Example.plainPod, Example.podA]).2
      = [Event.CreateNode (Spec.registered karpenter Example.node),
         Spec.bindCall "ip-10-0-0-1" Example.plainPod,
         Spec.bindCall "ip-10-0-0-1" Example.podA] ∧
    (Launcher.bind karpenter Example.forbiddenWorld Context.background Example.node
        [Example.plainPod, Example.podA]).2
      = [Event.CreateNode (Spec.registered karpenter Example.node)] ∧
    (Launcher.bind karpenter Example.forbiddenWorld Context.background Example.node
        [Example.plainPod, Example.podA]).1.map Err.Error
      = ["creating node ip-10-0-0-1, nodes is forbidden"] ∧
    errors.IsAlreadyExists Example.shadowedAlreadyExists = false ∧
    Launcher.bind karpenter Example.shadowedExistsWorld Context.background Example.node
        [Example.plainPod, Example.podA]
      = ([fmt.Errorfw "creating node ip-10-0-0-1, " [Example.shadowedAlreadyExists]],
          [Event.CreateNode (Spec.registered karpenter Example.node)]) :=
  ⟨congrArg Prod.snd
      ((create_tolerates_already_exists karpenter Example.existingNodeWorld Example.world
        Context.background Example.node [Example.plainPod, Example.podA]
        (.status .AlreadyExists "nodes \"ip-10-0-0-1\" already exists")).2.1
          rfl rfl (fun _ => rfl)),
   congrArg Prod.snd
      ((create_tolerates_already_exists karpenter Example.forbiddenWorld Example.world
        Context.background Example.node [Example.plainPod, Example.podA]
        (.status .Forbidden "nodes is forbidden")).2.2 rfl rfl),
   (congrArg (fun r => r.1.map Err.Error)
      ((create_tolerates_already_exists karpenter Example.forbiddenWorld Example.world
        Context.background Example.node [Example.plainPod, Example.podA]
        (.status .Forbidden "nodes is forbidden")).2.2 rfl rfl)).trans (by decide),
   rfl,
   (create_tolerates_already_exists karpenter Example.shadowedExistsWorld Example.world
      Context.background Example.node [Example.plainPod, Example.podA]
      Example.shadowedAlreadyExists).2.2 rfl rfl⟩

/-- C7 (counterexample): the node-create call fails with `already exists` and the
context is done when the bind loop starts; the pod of the batch receives no bind call
and no error is returned. -/
theorem bind_skips_binds_when_cancelled :
    (Example.existingNodeWorld.CreateNode (Spec.registered karpenter Example.node)).map
        errors.IsAlreadyExists = some true ∧
    (Launcher.bind karpenter Example.existingNodeWorld Example.cancelled Example.node
        [Example.plainPod]).2
      = [Event.CreateNode (Spec.registered karpenter Example.node)] ∧
    Spec.bindCall "ip-10-0-0-1" Example.plainPod ∉
      (Launcher.bind karpenter Example.existingNodeWorld Example.cancelled Example.node
        [Example.plainPod]).2 ∧
    (Launcher.bind karpenter Example.existingNodeWorld Example.cancelled Example.node
        [Example.plainPod]).1.length = 0 := by
  decide

/-- C8: once the node creation has succeeded or has been tolerated and while the
context is not cancelled, `Launcher.bind` issues, after the creation, one bind call for
every pod of the batch whatever the other binds answer, and returns the aggregate that
holds, in batch order, exactly the error of each bind that failed and nothing for a bind
that succeeded: as many errors as failed binds, and nil exactly when every bind
succeeded. -/
theorem bind_collects_bind_failures (k : Deps) (w : World) (ctx : Context) (node : Node)
    (pods : List Pod)
    (hcreate : ∀ err, w.CreateNode (Spec.registered k node) = some err →
      errors.IsAlreadyExists err = true)
    (hctx : ∀ i, ctx.Done i = false) :
    (Launcher.bind k w ctx node pods).2
      = Event.CreateNode (Spec.registered k node) :: pods.map (Spec.bindCall node.Name) ∧
    (Launcher.bind k w ctx node pods).1
      = pods.enum.filterMap (Spec.bindAnswer w node.Name) ∧
    (Launcher.bind k w ctx node pods).1.length
      = (pods.enum.filter (fun piece => (Spec.bindAnswer w node.Name piece).isSome)).length ∧
    ((Launcher.bind k w ctx node pods).1 = [] ↔
      ∀ piece ∈ pods.enum, Spec.bindAnswer w node.Name piece = none) := by
  rw [bind_of_created k w ctx node pods hcreate, bindLoop_background k w ctx node pods hctx]
  refine ⟨rfl, rfl, filterMap_length_eq _ _, ?_⟩
  simp only [List.filterMap_eq_nil_iff]

/-- C8 (witness): a batch of three pods of which the bind of `pod-a` fails: the node is
created, all three pods receive their bind call, and the aggregate holds exactly the one
error of `pod-a`. -/
theorem bind_collects_bind_failures_witness :
    (Launcher.bind karpenter Example.failingBindWorld Context.background Example.node
        [Example.plainPod, Example.podA, Example.podB]).2
      = [Event.CreateNode (Spec.registered karpenter Example.node),
         Spec.bindCall "ip-10-0-0-1" Example.plainPod,
         Spec.bindCall "ip-10-0-0-1" Example.podA,
         Spec.bindCall "ip-10-0-0-1" Example.podB] ∧
    (Launcher.bind karpenter Example.failingBindWorld Context.background Example.node
        [Example.plainPod, Example.podA, Example.podB]).1.map Err.Error
      = ["pod pod-a is being deleted"] ∧
    (Launcher.bind karpenter Example.failingBindWorld Context.background Example.node
        [Example.plainPod, Example.podA, Example.podB]).1.length = 1 := by
  have h := bind_collects_bind_failures karpenter Example.failingBindWorld Context.background
    Example.node [Example.plainPod, Example.podA, Example.podB]
    (fun _ he => by cases he) (fun _ => rfl)
  exact ⟨h.1, (congrArg (List.map Err.Error) h.2.1).trans (by decide),
    h.2.2.1.trans (by decide)⟩

/-! ## Lemmas on the reconcile loop -/

theorem Reconcile_listed (k : Deps) (w : World) (req : reconcile.Request)
    (provisioner : v1alpha5.Provisioner) (listed : List Pod)
    (hg : w.Get req.toNamespacedName = .ok provisioner) (hl : w.ListPods = .ok listed) :
    Controller.Reconcile k w req
      = if (Spec.provisionablePods k provisioner listed).length == 0 then
          (({ Requeue := false }, []),
            [.Get req.toNamespacedName, .BatcherWait provisioner, .ListPods])
        else if !(w.GetInstanceTypes provisioner.Spec.Constraints).2.isEmpty then
          (({ Requeue := false },
             [fmt.Errorfw "getting instance types, "
               (w.GetInstanceTypes provisioner.Spec.Constraints).2]),
            [.Get req.toNamespacedName, .BatcherWait provisioner, .ListPods,
             .GetInstanceTypes provisioner.Spec.Constraints])
        else if !(w.Solve provisioner (w.GetInstanceTypes provisioner.Spec.Constraints).1
            (Spec.provisionablePods k provisioner listed)).2.isEmpty then
          (({ Requeue := false },
             [fmt.Errorfw "solving scheduling constraints, "
               (w.Solve provisioner (w.GetInstanceTypes provisioner.Spec.Constraints).1
                 (Spec.provisionablePods k provisioner listed)).2]),
            [.Get req.toNamespacedName, .BatcherWait provisioner, .ListPods,
             .GetInstanceTypes provisioner.Spec.Constraints,
             .Solve provisioner (w.GetInstanceTypes provisioner.Spec.Constraints).1
               (Spec.provisionablePods k provisioner listed)])
        else
          (({ Requeue :=
                (w.Launch
                  (w.Solve provisioner (w.GetInstanceTypes provisioner.Spec.Constraints).1
                    (Spec.provisionablePods k provisioner listed)).1
                  (w.GetInstanceTypes provisioner.Spec.Constraints).1).isEmpty },
             w.Launch
               (w.Solve provisioner (w.GetInstanceTypes provisioner.Spec.Constraints).1
                 (Spec.provisionablePods k provisioner listed)).1
               (w.GetInstanceTypes provisioner.Spec.Constraints).1),
            [.Get req.toNamespacedName, .BatcherWait provisioner, .ListPods,
             .GetInstanceTypes provisioner.Spec.Constraints,
             .Solve provisioner (w.GetInstanceTypes provisioner.Spec.Constraints).1
               (Spec.provisionablePods k provisioner listed),
             .Launch
               (w.Solve provisioner (w.GetInstanceTypes provisioner.Spec.Constraints).1
                 (Spec.provisionablePods k provisioner listed)).1
               (w.GetInstanceTypes provisioner.Spec.Constraints).1]) := by
  unfold Controller.Reconcile Controller.provisionerFor
  simp only [hg, GetProvisionablePods_ok k w provisioner listed hl, Spec.provisionablePods]
  simp only [List.isEmpty_nil, Bool.not_true, Bool.false_eq_true, if_false]
  split
  · rfl
  · split
    · rfl
    · split
      · rfl
      · cases hL : (w.Launch
          (w.Solve provisioner (w.GetInstanceTypes provisioner.Spec.Constraints).1
            (List.filter (fun p => decide (Spec.Admissible k p provisioner)) listed)).1
          (w.GetInstanceTypes provisioner.Spec.Constraints).1) with
        | nil => simp
        | cons e es => simp

theorem Reconcile_list_failed (k : Deps) (w : World) (req : reconcile.Request)
    (provisioner : v1alpha5.Provisioner) (err : Err)
    (hg : w.Get req.toNamespacedName = .ok provisioner) (hl : w.ListPods = .error err) :
    Controller.Reconcile k w req
      = (({ Requeue := false },
           [fmt.Errorfw "filtering pods, " [fmt.Errorfw "listing unscheduled pods, " [err]]]),
          [.Get req.toNamespacedName, .BatcherWait provisioner, .ListPods]) := by
  unfold Controller.Reconcile Controller.provisionerFor Filter.GetProvisionablePods
  simp [hg, hl]

theorem Reconcile_fetch_failed (k : Deps) (w : World) (req : reconcile.Request) (err : Err)
    (hg : w.Get req.toNamespacedName = .error err) :
    Controller.Reconcile k w req
      = if errors.IsNotFound err then
          (({ Requeue := false }, []),
            [.Get req.toNamespacedName, .BatcherWait emptyProvisioner])
        else (({ Requeue := false }, [err]), [.Get req.toNamespacedName]) := by
  unfold Controller.Reconcile Controller.provisionerFor
  simp only [hg]
  split <;> rfl

theorem reconcileFails_iff (k : Deps) (w : World) (req : reconcile.Request) :
    (Controller.Reconcile k w req).1.2 ≠ [] ↔ Spec.ReconcileFails k w req := by
  unfold Spec.ReconcileFails Spec.launched Spec.solved Spec.fetched
  cases hg : w.Get req.toNamespacedName with
  | error err =>
    rw [Reconcile_fetch_failed k w req err hg]
    cases h : errors.IsNotFound err <;> simp [h]
  | ok provisioner =>
    cases hl : w.ListPods with
    | error err =>
      rw [Reconcile_list_failed k w req provisioner err hg hl]
      simp
    | ok listed =>
      rw [Reconcile_listed k w req provisioner listed hg hl]
      simp only []
      split
      · rename_i h
        have : Spec.provisionablePods k provisioner listed = [] := by
          simpa [List.length_eq_zero] using h
        simp [this]
      · rename_i h
        have hne : Spec.provisionablePods k provisioner listed ≠ [] := by
          intro e; apply h; simp [e]
        split
        · rename_i h₁
          have : (w.GetInstanceTypes provisioner.Spec.Constraints).2 ≠ [] := by
            intro e; simp [e] at h₁
          simp [hne, this]
        · rename_i h₁
          have h₁' : (w.GetInstanceTypes provisioner.Spec.Constraints).2 = [] := by
            cases hx : (w.GetInstanceTypes provisioner.Spec.Constraints).2 with
            | nil => rfl
            | cons a b => simp [hx] at h₁
          split
          · rename_i h₂
            have : (w.Solve provisioner (w.GetInstanceTypes provisioner.Spec.Constraints).1
                (Spec.provisionablePods k provisioner listed)).2 ≠ [] := by
              intro e; simp [e] at h₂
            simp [hne, this]
          · rename_i h₂
            have h₂' : (w.Solve provisioner (w.GetInstanceTypes provisioner.Spec.Constraints).1
                (Spec.provisionablePods k provisioner listed)).2 = [] := by
              cases hx : (w.Solve provisioner (w.GetInstanceTypes provisioner.Spec.Constraints).1
                (Spec.provisionablePods k provisioner listed)).2 with
              | nil => rfl
              | cons a b => simp [hx] at h₂
            simp [hne, h₁', h₂']

theorem solve_receives_provisionable (k : Deps) (w : World) (req : reconcile.Request)
    (provisioner : v1alpha5.Provisioner) (instanceTypes : List InstanceType)
    (pods : List Pod)
    (h : Event.Solve provisioner instanceTypes pods ∈ (Controller.Reconcile k w req).2) :
    ∀ pod ∈ pods, Filter.isProvisionable k pod provisioner = [] := by
  cases hg : w.Get req.toNamespacedName with
  | error err =>
    rw [Reconcile_fetch_failed k w req err hg] at h
    split at h <;> simp at h
  | ok found =>
    cases hl : w.ListPods with
    | error err =>
      rw [Reconcile_list_failed k w req found err hg hl] at h
      simp at h
    | ok listed =>
      have key : ∀ pod ∈ Spec.provisionablePods k found listed,
          Filter.isProvisionable k pod found = [] := by
        intro pod hp
        simp only [Spec.provisionablePods, List.mem_filter, decide_eq_true_eq] at hp
        exact (isProvisionable_eq_nil_iff k pod found).mpr hp.2
      rw [Reconcile_listed k w req found listed hg hl] at h
      split at h
      · simp at h
      · split at h
        · simp at h
        · split at h
          · simp only [List.mem_cons, List.mem_singleton, Event.Solve.injEq, reduceCtorEq,
              false_or, List.not_mem_nil, or_false] at h
            obtain ⟨rfl, _, rfl⟩ := h
            exact key
          · simp only [List.mem_cons, List.mem_singleton, Event.Solve.injEq, reduceCtorEq,
              false_or, List.not_mem_nil, or_false] at h
            obtain ⟨rfl, _, rfl⟩ := h
            exact key

/-! ## The reconcile loop -/

/-- C9: `Controller.Reconcile` calls its stages in the order fetch provisioner, wait on
the batch, list and filter pods, fetch instance types, `Solve`, `Launch`, and returns a
non-nil error exactly when the first failing stage it reaches is the provisioner fetch
with an error other than not-found, the pod listing, the instance-type fetch, `Solve` or
`Launch`; it then has called no later stage. When the provisioner is not found it waits
on the batch of the empty provisioner and returns no error and no requeue, calling no
later stage; when no listed pod is provisionable it returns no error and no requeue
without fetching instance types; when every stage succeeds with at least one pod it
returns no error with `Requeue` set. -/
theorem Reconcile_stage_outcomes (k : Deps) (w : World) (req : reconcile.Request) :
    ((Controller.Reconcile k w req).1.2 ≠ [] ↔ Spec.ReconcileFails k w req) ∧
    (∀ err, w.Get req.toNamespacedName = .error err →
      (errors.IsNotFound err = true →
        Controller.Reconcile k w req
          = (({ Requeue := false }, []),
              [.Get req.toNamespacedName, .BatcherWait emptyProvisioner])) ∧
      (errors.IsNotFound err = false →
        Controller.Reconcile k w req
          = (({ Requeue := false }, [err]), [.Get req.toNamespacedName]))) ∧
    (∀ provisioner, w.Get req.toNamespacedName = .ok provisioner →
      (∀ err, w.ListPods = .error err →
        (Controller.Reconcile k w req).1.1 = { Requeue := false } ∧
        (Controller.Reconcile k w req).1.2 ≠ [] ∧
        (Controller.Reconcile k w req).2
          = [.Get req.toNamespacedName, .BatcherWait provisioner, .ListPods]) ∧
      (∀ listed, w.ListPods = .ok listed →
        (Spec.provisionablePods k provisioner listed = [] →
          Controller.Reconcile k w req
            = (({ Requeue := false }, []), (Spec.stages k w req provisioner listed).take 3)) ∧
        (Spec.provisionablePods k provisioner listed ≠ [] →
          ((Spec.fetched w provisioner).2 ≠ [] →
            (Controller.Reconcile k w req).1.1 = { Requeue := false } ∧
            (Controller.Reconcile k w req).1.2 ≠ [] ∧
            (Controller.Reconcile k w req).2
              = (Spec.stages k w req provisioner listed).take 4) ∧
          ((Spec.fetched w provisioner).2 = [] →
            (Spec.solved k w provisioner listed).2 ≠ [] →
            (Controller.Reconcile k w req).1.1 = { Requeue := false } ∧
            (Controller.Reconcile k w req).1.2 ≠ [] ∧
            (Controller.Reconcile k w req).2
              = (Spec.stages k w req provisioner listed).take 5) ∧
          ((Spec.fetched w provisioner).2 = [] →
            (Spec.solved k w provisioner listed).2 = [] →
            Spec.launched k w provisioner listed ≠ [] →
            Controller.Reconcile k w req
              = (({ Requeue := false }, Spec.launched k w provisioner listed),
                  Spec.stages k w req provisioner listed)) ∧
          ((Spec.fetched w provisioner).2 = [] →
            (Spec.solved k w provisioner listed).2 = [] →
            Spec.launched k w provisioner listed = [] →
            Controller.Reconcile k w req
              = (({ Requeue := true }, []), Spec.stages k w req provisioner listed))))) := by
  refine ⟨reconcileFails_iff k w req, ?_, ?_⟩
  · intro err hg
    rw [Reconcile_fetch_failed k w req err hg]
    constructor <;> intro h <;> simp [h]
  · intro provisioner hg
    constructor
    · intro err hl
      rw [Reconcile_list_failed k w req provisioner err hg hl]
      simp
    · intro listed hl
      rw [Reconcile_listed k w req provisioner listed hg hl]
      unfold Spec.stages Spec.launched Spec.solved Spec.fetched
      refine ⟨fun h => by simp [h], fun h => ⟨?_, ?_, ?_, ?_⟩⟩
      · intro h₁
        have h₁' : (w.GetInstanceTypes provisioner.Spec.Constraints).2.isEmpty = false := by
          simpa [List.isEmpty_iff] using h₁
        simp [h, h₁']
      · intro h₁ h₂
        have h₂' : (w.Solve provisioner (w.GetInstanceTypes provisioner.Spec.Constraints).1
            (Spec.provisionablePods k provisioner listed)).2.isEmpty = false := by
          simpa [List.isEmpty_iff] using h₂
        simp [h, h₁, h₂']
      · intro h₁ h₂ h₃
        have h₃' : (w.Launch (w.Solve provisioner
            (w.GetInstanceTypes provisioner.Spec.Constraints).1
            (Spec.provisionablePods k provisioner listed)).1
            (w.GetInstanceTypes provisioner.Spec.Constraints).1).isEmpty = false := by
          simpa [List.isEmpty_iff] using h₃
        simp [h, h₁, h₂, h₃']
      · intro h₁ h₂ h₃
        simp [h, h₁, h₂, h₃]

/-- C9 (witness): in the example world the reconciliation of `default` runs all six
calls in order and asks for a requeue, and the reconciliation of the absent provisioner
`b` stops after the fetch without error and without requeue. In the world whose fetch
fails with an error that wraps a status of unknown reason before a not-found status, the
reconciliation returns that error after the fetch and makes no other call. -/
theorem Reconcile_stage_outcomes_witness :
    Controller.Reconcile karpenter Example.world (Example.request "default")
      = (({ Requeue := true }, []),
          Spec.stages karpenter Example.world (Example.request "default")
            (Example.provisioner "default")
            [Example.plainPod, Example.podA, Example.podB]) ∧
    Controller.Reconcile karpenter Example.world (Example.request "b")
      = (({ Requeue := false }, []),
          [.Get { Namespace := "", Name := "b" }, .BatcherWait emptyProvisioner]) ∧
    Controller.Reconcile karpenter Example.shadowedNotFoundWorld (Example.request "default")
      = (({ Requeue := false }, [Example.shadowedNotFound]),
          [.Get { Namespace := "", Name := "default" }]) :=
  ⟨((((Reconcile_stage_outcomes karpenter Example.world (Example.request "default")).2.2
      (Example.provisioner "default") rfl).2
        [Example.plainPod, Example.podA, Example.podB] rfl).2 (by decide)).2.2.2 rfl rfl rfl,
   ((Reconcile_stage_outcomes karpenter Example.world (Example.request "b")).2.1
      (.status .NotFound "provisioners \"b\" not found") rfl).1 rfl,
   ((Reconcile_stage_outcomes karpenter Example.shadowedNotFoundWorld
      (Example.request "default")).2.1 Example.shadowedNotFound rfl).2 rfl⟩

/-- C10: a pod with pod affinity set is always rejected with the affinity reason: for
every pod whose `Affinity.PodAffinity` is non-nil and every provisioner, whatever else
holds of the pod, the aggregate of `Filter.isProvisionable` is non-nil and includes the
reason `pod affinity is not supported`; `GetProvisionablePods` does not return the pod,
and no call of `Scheduler.Solve` made by `Controller.Reconcile` receives it. -/
theorem pod_affinity_rejected (k : Deps) (w : World) (req : reconcile.Request) (pod : Pod)
    (provisioner : v1alpha5.Provisioner) (affinity : Affinity) (podAffinity : PodAffinity)
    (ha : pod.Spec.Affinity = some affinity) (hp : affinity.PodAffinity = some podAffinity) :
    Err.errorf "pod affinity is not supported" ∈ Filter.isProvisionable k pod provisioner ∧
    Filter.isProvisionable k pod provisioner ≠ [] ∧
    pod ∉ (Filter.GetProvisionablePods k w provisioner).1.1 ∧
    ∀ solved instanceTypes pods,
      Event.Solve solved instanceTypes pods ∈ (Controller.Reconcile k w req).2 →
        pod ∉ pods := by
  have hmem : ∀ p : v1alpha5.Provisioner,
      Err.errorf "pod affinity is not supported" ∈ Filter.isProvisionable k pod p := by
    intro p
    rw [isProvisionable_eq, validateAffinity_eq, ha]
    simp [hp]
  have hne : ∀ p : v1alpha5.Provisioner, Filter.isProvisionable k pod p ≠ [] :=
    fun p e => by have := hmem p; rw [e] at this; exact absurd this (List.not_mem_nil _)
  refine ⟨hmem provisioner, hne provisioner, ?_, ?_⟩
  · exact fun h => hne provisioner (mem_GetProvisionablePods k w provisioner pod h)
  · intro solved instanceTypes pods hs hm
    exact hne solved (solve_receives_provisionable k w req solved instanceTypes pods hs pod hm)

/-- C10 (witness): the example pod with pod affinity is listed next to a plain pod; the
filter reports the affinity reason for it and does not return it, and the reconciliation
of `default` solves for the plain pod only. -/
theorem pod_affinity_rejected_witness :
    Err.errorf "pod affinity is not supported"
      ∈ Filter.isProvisionable karpenter Example.affinityPod (Example.provisioner "default") ∧
    Example.affinityPod ∉
      (Filter.GetProvisionablePods karpenter Example.affinityWorld
        (Example.provisioner "default")).1.1 ∧
    (Filter.GetProvisionablePods karpenter Example.affinityWorld
        (Example.provisioner "default")).1.1 = [Example.plainPod] :=
  ⟨(pod_affinity_rejected karpenter Example.affinityWorld (Example.request "default")
      Example.affinityPod (Example.provisioner "default") _ _ rfl rfl).1,
   (pod_affinity_rejected karpenter Example.affinityWorld (Example.request "default")
      Example.affinityPod (Example.provisioner "default") _ _ rfl rfl).2.2.1,
   by decide⟩

/-! ## Lemmas on the managed tags -/

theorem name_ne_clusterKey (n : String) : "Name" ≠ v1alpha1.ClusterTagKeyFormat n := by
  intro h
  have := congrArg String.data h
  simp [v1alpha1.ClusterTagKeyFormat, String.data_append] at this

theorem name_ne_karpenterKey (n : String) : "Name" ≠ v1alpha1.KarpenterTagKeyFormat n := by
  intro h
  have := congrArg String.data h
  simp [v1alpha1.KarpenterTagKeyFormat, String.data_append] at this

theorem clusterKey_ne_karpenterKey (n : String) :
    v1alpha1.ClusterTagKeyFormat n ≠ v1alpha1.KarpenterTagKeyFormat n := by
  intro h
  have := congrArg String.data h
  simp [v1alpha1.ClusterTagKeyFormat, v1alpha1.KarpenterTagKeyFormat, String.data_append] at this

theorem ManagedTagsFor_eq (n : String) :
    v1alpha1.ManagedTagsFor n
      = [ ("Name", "karpenter.sh/" ++ n),
          (v1alpha1.ClusterTagKeyFormat n, "owned"),
          (v1alpha1.KarpenterTagKeyFormat n, "owned") ] := by
  have h₁ := name_ne_clusterKey n
  have h₂ := name_ne_karpenterKey n
  have h₃ := clusterKey_ne_karpenterKey n
  simp [v1alpha1.ManagedTagsFor, mapLiteral, mapAssign, h₁, h₂, h₃]

/-! ## The managed tags -/

/-- C11 (as amended): for every cluster name `n`, `ManagedTagsFor n` holds exactly three
tags: the two ownership tags, whose keys are built from `ClusterTagKeyFormat` and
`KarpenterTagKeyFormat` with `n` and whose value is `owned`, and the tag `Name` with the
value `karpenter.sh/` followed by `n`; no other key is bound; the three keys are pairwise
distinct, so no entry of the literal overwrites another; and the cluster-owned key is
the cluster-discovery key under which `Constraints.Default` puts `*` in a nil subnet
selector and in a nil security-group selector. -/
theorem ManagedTagsFor_tags (k : Deps) (n : String) (c : v1alpha1.Constraints) :
    (v1alpha1.ManagedTagsFor n).length = 3 ∧
    (v1alpha1.ManagedTagsFor n).lookup (v1alpha1.ClusterTagKeyFormat n) = some "owned" ∧
    (v1alpha1.ManagedTagsFor n).lookup (v1alpha1.KarpenterTagKeyFormat n) = some "owned" ∧
    (v1alpha1.ManagedTagsFor n).lookup "Name" = some ("karpenter.sh/" ++ n) ∧
    (∀ key, key ≠ "Name" → key ≠ v1alpha1.ClusterTagKeyFormat n →
      key ≠ v1alpha1.KarpenterTagKeyFormat n →
      (v1alpha1.ManagedTagsFor n).lookup key = none) ∧
    ("Name" ≠ v1alpha1.ClusterTagKeyFormat n ∧
      "Name" ≠ v1alpha1.KarpenterTagKeyFormat n ∧
      v1alpha1.ClusterTagKeyFormat n ≠ v1alpha1.KarpenterTagKeyFormat n) ∧
    v1alpha1.ClusterTagKeyFormat n = v1alpha1.ClusterDiscoveryTagKeyFormat n ∧
    (v1alpha1.Constraints.Default k { ClusterName := n }
        { c with SubnetSelector := none }).SubnetSelector
      = some [(v1alpha1.ClusterTagKeyFormat n, "*")] ∧
    (v1alpha1.Constraints.Default k { ClusterName := n }
        { c with SecurityGroupSelector := none }).SecurityGroupSelector
      = some [(v1alpha1.ClusterTagKeyFormat n, "*")] := by
  have h₁ := name_ne_clusterKey n
  have h₂ := name_ne_karpenterKey n
  have h₃ := clusterKey_ne_karpenterKey n
  refine ⟨?_, ?_, ?_, ?_, ?_, ⟨h₁, h₂, h₃⟩, rfl, ?_, ?_⟩
  · rw [ManagedTagsFor_eq]; rfl
  · rw [ManagedTagsFor_eq]
    simp only [List.lookup, beq_false_of_ne h₁.symm, beq_self_eq_true]
  · rw [ManagedTagsFor_eq]
    simp only [List.lookup, beq_false_of_ne h₂.symm, beq_false_of_ne h₃.symm,
      beq_self_eq_true]
  · rw [ManagedTagsFor_eq]
    simp only [List.lookup, beq_self_eq_true]
  · intro key g₁ g₂ g₃
    rw [ManagedTagsFor_eq]
    simp only [List.lookup, beq_false_of_ne g₁, beq_false_of_ne g₂, beq_false_of_ne g₃]
  · exact (Default_fields k { ClusterName := n } { c with SubnetSelector := none }).2.2.2.1
  · exact (Default_fields k { ClusterName := n }
      { c with SecurityGroupSelector := none }).2.2.2.2

/-- C11 (counterexample): for the cluster `prod` the two ownership tags carry the value
`owned`, not the cluster name. -/
theorem ManagedTagsFor_values_are_owned :
    (v1alpha1.ManagedTagsFor "prod").lookup (v1alpha1.ClusterTagKeyFormat "prod")
      = some "owned" ∧
    (v1alpha1.ManagedTagsFor "prod").lookup (v1alpha1.KarpenterTagKeyFormat "prod")
      = some "owned" ∧
    (v1alpha1.ManagedTagsFor "prod").lookup (v1alpha1.ClusterTagKeyFormat "prod")
      ≠ some "prod" ∧
    (v1alpha1.ManagedTagsFor "prod").lookup (v1alpha1.KarpenterTagKeyFormat "prod")
      ≠ some "prod" ∧
    v1alpha1.ManagedTagsFor "prod"
      = [("Name", "karpenter.sh/prod"), ("kubernetes.io/cluster/prod", "owned"),
         ("karpenter.sh/cluster/prod", "owned")] := by
  decide

end Karpenter
